import Mathlib

/-!
Verification of the collision-simulation core of the TestRaylibFlecs repository
(`src/main.cpp`).  The per-frame pipeline (spatial-hash build, entity-entity
broadphase detection, entity-boundary detection, response application,
integration), the reactive speed rescale, and retry-capped body placement are
shallowly embedded below.  Float arithmetic is modelled over the real numbers;
the C++ integer conversions in the cell-key computation are modelled over
`Int`/`Nat` with explicit reductions modulo `2 ^ 32` and `2 ^ 64`.
-/

namespace FlecsCollision

/-! ### Machine-integer cell keys

`main.cpp` line 133: `CellKey(x, y)` packs the two `int` cell coordinates into a
`long long` as `((long long)x << 32) ^ (unsigned long long)y`.  Line 550 then
stores the result into `const int32_t cellIndex`, truncating it to its low 32
bits before it is used (sign-extended back to `long long`) as the bucket key of
the unordered map. -/

/-- Twos-complement bit pattern of an integer as an unsigned 64-bit value. -/
def toU64 (z : Int) : Nat := (z % (2 ^ 64 : Int)).toNat

/-- Reinterpret an unsigned 64-bit pattern as a signed `long long` value. -/
def int64OfNat (n : Nat) : Int :=
  if n < 2 ^ 63 then (n : Int) else (n : Int) - 2 ^ 64

/-- Reinterpret an unsigned 32-bit pattern as a signed `int32_t` value. -/
def int32OfNat (n : Nat) : Int :=
  if n < 2 ^ 31 then (n : Int) else (n : Int) - 2 ^ 32

/-- CellKey, main.cpp line 133: `(static_cast<long long>(x) << 32) ^ static_cast<unsigned long long>(y)`. -/
def CellKey (x y : Int) : Int :=
  int64OfNat (((toU64 x * 2 ^ 32) % 2 ^ 64) ^^^ toU64 y)

/-- From main.cpp line 550: the key under which the build step actually inserts into
`g_cellBuckets`: `CellKey` truncated through `int32_t` and implicitly converted
back to the `long long` key type of the map. -/
def storedBucketKey (x y : Int) : Int :=
  int32OfNat (toU64 (CellKey x y) % 2 ^ 32)

theorem toU64_lt (z : Int) : toU64 z < 2 ^ 64 := by
  unfold toU64; omega

theorem int64OfNat_inj {m n : Nat} (hm : m < 2 ^ 64) (hn : n < 2 ^ 64)
    (h : int64OfNat m = int64OfNat n) : m = n := by
  unfold int64OfNat at h
  split at h <;> split at h <;> omega

theorem pattern_eq (t u : Nat) :
    ((t * 2 ^ 32) % 2 ^ 64) ^^^ u = (2 ^ 32 * (t % 2 ^ 32)) ^^^ u := by
  rw [show (2 : Nat) ^ 64 = 2 ^ 32 * 2 ^ 32 by norm_num, Nat.mul_mod_mul_right,
    Nat.mul_comm]

theorem xor_lo (a u : Nat) : ((2 ^ 32 * a) ^^^ u) % 2 ^ 32 = u % 2 ^ 32 := by
  apply Nat.eq_of_testBit_eq
  intro i
  simp only [Nat.testBit_mod_two_pow, Nat.testBit_xor, Nat.testBit_mul_pow_two]
  by_cases h : i < 32
  · simp [h, Nat.not_le.mpr h]
  · simp [h]

theorem xor_hi (a u : Nat) : ((2 ^ 32 * a) ^^^ u) / 2 ^ 32 = a ^^^ (u / 2 ^ 32) := by
  rw [← Nat.shiftRight_eq_div_pow, ← Nat.shiftRight_eq_div_pow]
  apply Nat.eq_of_testBit_eq
  intro i
  simp only [Nat.testBit_shiftRight, Nat.testBit_xor, Nat.testBit_mul_pow_two]
  simp [Nat.le_add_right]

theorem toU64_lo (z : Int) (h1 : -(2 ^ 31) ≤ z) (h2 : z < 2 ^ 31) :
    ((toU64 z % 2 ^ 32 : Nat) : Int) = if z < 0 then z + 2 ^ 32 else z := by
  unfold toU64; split <;> omega

theorem toU64_hi (z : Int) (h1 : -(2 ^ 31) ≤ z) (h2 : z < 2 ^ 31) :
    toU64 z / 2 ^ 32 = if z < 0 then 2 ^ 32 - 1 else 0 := by
  unfold toU64; split <;> omega

theorem toU64_lo_inj {z z' : Int} (h1 : -(2 ^ 31) ≤ z) (h2 : z < 2 ^ 31)
    (h1' : -(2 ^ 31) ≤ z') (h2' : z' < 2 ^ 31)
    (h : toU64 z % 2 ^ 32 = toU64 z' % 2 ^ 32) : z = z' := by
  have A := toU64_lo z h1 h2
  have B := toU64_lo z' h1' h2'
  rw [h] at A
  rw [B] at A
  split_ifs at A <;> omega

/-- The intended 64-bit packed key is injective over signed 32-bit cell
coordinates. -/
theorem CellKey_inj {x y x' y' : Int}
    (hx1 : -(2 ^ 31) ≤ x) (hx2 : x < 2 ^ 31) (hy1 : -(2 ^ 31) ≤ y) (hy2 : y < 2 ^ 31)
    (hx1' : -(2 ^ 31) ≤ x') (hx2' : x' < 2 ^ 31) (hy1' : -(2 ^ 31) ≤ y') (hy2' : y' < 2 ^ 31)
    (h : CellKey x y = CellKey x' y') : x = x' ∧ y = y' := by
  unfold CellKey at h
  rw [pattern_eq, pattern_eq] at h
  have hb : ∀ t : Int, 2 ^ 32 * (toU64 t % 2 ^ 32) < 2 ^ 64 := by
    intro t; have : toU64 t % 2 ^ 32 < 2 ^ 32 := Nat.mod_lt _ (by norm_num)
    omega
  have hpat := int64OfNat_inj
    (Nat.xor_lt_two_pow (hb x) (toU64_lt y))
    (Nat.xor_lt_two_pow (hb x') (toU64_lt y')) h
  have hlo : toU64 y % 2 ^ 32 = toU64 y' % 2 ^ 32 := by
    have h2 := congrArg (· % 2 ^ 32) hpat
    simp only [xor_lo] at h2
    exact h2
  have hy := toU64_lo_inj hy1 hy2 hy1' hy2' hlo
  subst hy
  have hhi := congrArg (· / 2 ^ 32) hpat
  simp only [xor_hi] at hhi
  have hx := Nat.xor_left_inj.mp hhi
  exact ⟨toU64_lo_inj hx1 hx2 hx1' hx2' hx, rfl⟩

/-! ### Raymath vector operations, over the reals -/

noncomputable section

@[ext]
structure Vector3 where
  x : ℝ
  y : ℝ
  z : ℝ

def Vector3Zero : Vector3 := ⟨0, 0, 0⟩

def Vector3Add (a b : Vector3) : Vector3 := ⟨a.x + b.x, a.y + b.y, a.z + b.z⟩

def Vector3Subtract (a b : Vector3) : Vector3 := ⟨a.x - b.x, a.y - b.y, a.z - b.z⟩

def Vector3Scale (v : Vector3) (s : ℝ) : Vector3 := ⟨v.x * s, v.y * s, v.z * s⟩

def Vector3Negate (v : Vector3) : Vector3 := ⟨-v.x, -v.y, -v.z⟩

def Vector3DotProduct (a b : Vector3) : ℝ := a.x * b.x + a.y * b.y + a.z * b.z

def Vector3Length (v : Vector3) : ℝ := Real.sqrt (v.x * v.x + v.y * v.y + v.z * v.z)

/-- Raymath `Vector3Distance(v1, v2)`: length of the componentwise difference. -/
def Vector3Distance (v1 v2 : Vector3) : ℝ := Vector3Length (Vector3Subtract v2 v1)

/-- Raymath `Vector3Normalize`: returns the input unchanged when its length is
zero, else divides by the length. -/
def Vector3Normalize (v : Vector3) : Vector3 :=
  if Vector3Length v = 0 then v else Vector3Scale v (1 / Vector3Length v)

/-- Raymath `Vector3Reflect`: `v - (2 * dot(v, normal)) * normal`. -/
def Vector3Reflect (v normal : Vector3) : Vector3 :=
  Vector3Subtract v (Vector3Scale normal (2 * Vector3DotProduct v normal))

/-! ### Components and world state (main.cpp lines 76-82, 128-177) -/

/-- The `GameState` singleton with its in-code defaults. -/
structure GameState where
  renderEntities : Bool := true
  gridSize : ℝ := 250
  entitySize : ℝ := 10
  entitySpeed : ℝ := 1500

/-- Per-body accumulated collision response. -/
structure CollisionResponse where
  posDelta : Vector3 := Vector3Zero
  velDelta : Vector3 := Vector3Zero
  hasCollision : Bool := false

def respZero : CollisionResponse := {}

/-- A live entity with its attached components.  Colors are opaque tags. -/
structure Body where
  id : ℕ
  pos : Vector3
  vel : Vector3
  color : ℕ
  cell : Int × Int
  resp : CollisionResponse

/-- The world: the list of live bodies (in storage order) plus the global
spatial-hash buckets `g_cellBuckets`, as a map from `long long` key to the
sequence of entity ids stored in that bucket. -/
structure World where
  bodies : List Body
  buckets : Int → List ℕ

/-- ComputeCell, main.cpp line 138: `floor(p.x / cellSize), floor(p.y / cellSize)`. -/
def ComputeCell (p : Vector3) (cellSize : ℝ) : Int × Int :=
  (⌊p.x / cellSize⌋, ⌊p.y / cellSize⌋)

/-! ### Per-frame systems (declared in `DeclareECS`, run in declaration order) -/

/-- System `DeclareClearSpatialBucketsSystem`: `g_cellBuckets.clear()`. -/
def ClearSpatialBuckets (w : World) : World := { w with buckets := fun _ => [] }

/-- Append an id to the bucket stored at key `k`. -/
def bucketInsert (f : Int → List ℕ) (k : Int) (j : ℕ) : Int → List ℕ :=
  fun k' => if k' = k then f k' ++ [j] else f k'

def UpdateSpatialCellBody (cellSize : ℝ) (b : Body) : Body :=
  { b with cell := ComputeCell b.pos cellSize }

/-- System `DeclareUpdateSpatialCellSystem`: recompute and store the cell of each body from
its position (cell size `max(entitySize * 2, 1)`), then push the id of the body into
`g_cellBuckets[cellIndex]` where `cellIndex` is the `int32_t`-truncated
`CellKey` (main.cpp:550). -/
def UpdateSpatialCell (gs : GameState) (w : World) : World :=
  let cellSize := max (gs.entitySize * 2) 1
  let bodies := w.bodies.map (UpdateSpatialCellBody cellSize)
  { bodies := bodies
    buckets := bodies.foldl
      (fun f b => bucketInsert f (storedBucketKey b.cell.1 b.cell.2) b.id) w.buckets }

/-- The scan order of `DeclareDetectEntitiesCollision`: `dy` in the outer loop,
`dx` in the inner loop, each from `-1` to `1`; entries are `(dx, dy)`. -/
def offsets : List (Int × Int) :=
  [(-1, -1), (0, -1), (1, -1), (-1, 0), (0, 0), (1, 0), (-1, 1), (0, 1), (1, 1)]

/-- The candidate ids examined for a body in cell `c`: the concatenation of the
buckets found by `g_cellBuckets.find(CellKey(nx, ny))` over the 3x3 scan. -/
def scanCands (bk : Int → List ℕ) (c : Int × Int) : List ℕ :=
  (offsets.map fun o => bk (CellKey (c.1 + o.1) (c.2 + o.2))).flatten

/-- The ordered pairs that pass the `e1.id() >= e2.id()` guard and reach the
distance test, for a body `b1` (main.cpp:580-588). -/
def pairsToProcess (bk : Int → List ℕ) (b1 : Body) : List (ℕ × ℕ) :=
  (scanCands bk b1.cell).filterMap fun j =>
    if b1.id < j then some (b1.id, j) else none

def findBody (i : ℕ) (bs : List Body) : Option Body := bs.find? fun b => b.id = i

def mapBody (i : ℕ) (f : Body → Body) (bs : List Body) : List Body :=
  bs.map fun b => if b.id = i then f b else b

/-- Accumulate deltas into a response and raise its flag (main.cpp:601-610). -/
def addResp (dp dv : Vector3) (r : CollisionResponse) : CollisionResponse :=
  { posDelta := Vector3Add r.posDelta dp
    velDelta := Vector3Add r.velDelta dv
    hasCollision := true }

/-- One candidate-pair interaction of `DeclareDetectEntitiesCollision`
(main.cpp:584-611): distance test, overlap, direction with the `+X` fallback at
zero distance, and accumulation into the responses of both bodies. -/
def interactPair (required : ℝ) (i j : ℕ) (bs : List Body) : List Body :=
  match findBody i bs, findBody j bs with
  | some b1, some b2 =>
    let distance := Vector3Distance b1.pos b2.pos
    if distance < required then
      let overlap := required - distance
      let direction := if 0 < distance then
          Vector3Normalize (Vector3Subtract b1.pos b2.pos)
        else (⟨1, 0, 0⟩ : Vector3)
      let p1Move := Vector3Scale direction (overlap * 0.5)
      let p2Move := Vector3Scale direction (-overlap * 0.5)
      let dv1 := Vector3Subtract (Vector3Reflect b1.vel direction) b1.vel
      let dv2 := Vector3Subtract (Vector3Reflect b2.vel (Vector3Negate direction)) b2.vel
      mapBody j (fun b => { b with resp := addResp p2Move dv2 b.resp })
        (mapBody i (fun b => { b with resp := addResp p1Move dv1 b.resp }) bs)
    else bs
  | _, _ => bs

/-- The scan one body performs in `DeclareDetectEntitiesCollision`. -/
def DetectEntitiesBody (required : ℝ) (bk : Int → List ℕ) (i : ℕ)
    (bs : List Body) : List Body :=
  match findBody i bs with
  | none => bs
  | some b1 => (pairsToProcess bk b1).foldl (fun acc p => interactPair required p.1 p.2 acc) bs

/-- System `DeclareDetectEntitiesCollision`: every body scans its 3x3 neighborhood and
accumulates responses; `requiredDistance = entitySize * 2`. -/
def DetectEntitiesCollision (gs : GameState) (w : World) : World :=
  { w with bodies := ((w.bodies.map Body.id).foldl
      (fun bs i => DetectEntitiesBody (gs.entitySize * 2) w.buckets i bs) w.bodies) }

/-- The wall-bounce computation of `DeclareDetectGridEntityCollision`
(main.cpp:459-505): the four wall tests accumulate `(bounced, normal, posFix)`
in order left, right, bottom, top; on any bounce the combined normal is
normalized (if nonzero) and the response is extended with the position fix and
the reflected-velocity delta. -/
def gridResp (gs : GameState) (p v : Vector3) (resp : CollisionResponse) : CollisionResponse :=
  let acc0 : Bool × Vector3 × Vector3 := (false, ⟨0, 0, 0⟩, ⟨0, 0, 0⟩)
  let acc1 := if p.x - gs.entitySize < -gs.gridSize ∧ v.x < 0 then
      (true, Vector3Add acc0.2.1 ⟨1, 0, 0⟩,
        (⟨acc0.2.2.x + ((-gs.gridSize + gs.entitySize) - p.x), acc0.2.2.y, acc0.2.2.z⟩ : Vector3))
    else acc0
  let acc2 := if p.x + gs.entitySize > gs.gridSize ∧ v.x > 0 then
      (true, Vector3Add acc1.2.1 ⟨-1, 0, 0⟩,
        (⟨acc1.2.2.x + ((gs.gridSize - gs.entitySize) - p.x), acc1.2.2.y, acc1.2.2.z⟩ : Vector3))
    else acc1
  let acc3 := if p.y - gs.entitySize < -gs.gridSize ∧ v.y < 0 then
      (true, Vector3Add acc2.2.1 ⟨0, 1, 0⟩,
        (⟨acc2.2.2.x, acc2.2.2.y + ((-gs.gridSize + gs.entitySize) - p.y), acc2.2.2.z⟩ : Vector3))
    else acc2
  let acc4 := if p.y + gs.entitySize > gs.gridSize ∧ v.y > 0 then
      (true, Vector3Add acc3.2.1 ⟨0, -1, 0⟩,
        (⟨acc3.2.2.x, acc3.2.2.y + ((gs.gridSize - gs.entitySize) - p.y), acc3.2.2.z⟩ : Vector3))
    else acc3
  if acc4.1 then
    let normal := if Vector3Length acc4.2.1 > 0 then Vector3Normalize acc4.2.1 else acc4.2.1
    let reflected := Vector3Reflect v normal
    { posDelta := Vector3Add resp.posDelta acc4.2.2
      velDelta := Vector3Add resp.velDelta (Vector3Subtract reflected v)
      hasCollision := true }
  else resp

/-- System `DeclareDetectGridEntityCollision` body callback: reads `p` and `v`, writes
only the own accumulator of the body. -/
def DetectGridEntityBody (gs : GameState) (b : Body) : Body :=
  { b with resp := gridResp gs b.pos b.vel b.resp }

def DetectGridEntityCollision (gs : GameState) (w : World) : World :=
  { w with bodies := w.bodies.map (DetectGridEntityBody gs) }

/-- System `DeclareApplyCollisionResponseSystem` body callback (main.cpp:627-640):
skip unflagged bodies; otherwise apply the deltas, draw a fresh color, and
reset the accumulator. -/
def ApplyCollisionResponseBody (fresh : ℕ → ℕ) (b : Body) : Body :=
  if b.resp.hasCollision = false then b
  else
    { b with pos := Vector3Add b.pos b.resp.posDelta
             vel := Vector3Add b.vel b.resp.velDelta
             color := fresh b.id
             resp := { posDelta := Vector3Zero, velDelta := Vector3Zero, hasCollision := false } }

def ApplyCollisionResponse (fresh : ℕ → ℕ) (w : World) : World :=
  { w with bodies := w.bodies.map (ApplyCollisionResponseBody fresh) }

/-- System `DeclareMoveEntitiesSystem` (main.cpp:517-521):
`p += v * min(delta_time, 0.33f)`. -/
def MoveEntitiesBody (dt : ℝ) (b : Body) : Body :=
  let clampedDeltaTime := min dt 0.33
  { b with pos := Vector3Add b.pos (Vector3Scale b.vel clampedDeltaTime) }

def MoveEntities (dt : ℝ) (w : World) : World :=
  { w with bodies := w.bodies.map (MoveEntitiesBody dt) }

/-- One frame of the physics pipeline, in the order the systems are declared in
`DeclareECS` (main.cpp:856-865): clear buckets, build the spatial hash, detect
entity-entity, detect entity-boundary, apply responses, integrate. -/
def FrameStep (gs : GameState) (fresh : ℕ → ℕ) (dt : ℝ) (w : World) : World :=
  MoveEntities dt
    (ApplyCollisionResponse fresh
      (DetectGridEntityCollision gs
        (DetectEntitiesCollision gs
          (UpdateSpatialCell gs
            (ClearSpatialBuckets w)))))

/-- Observer `DeclareGameStateObserver` (main.cpp:429-444): on any `GameState` write,
the velocity of every body is rescaled to `normalize(v) * entitySpeed`. -/
def rescaleVelocity (s : ℝ) (v : Vector3) : Vector3 := Vector3Scale (Vector3Normalize v) s

def GameStateObserver (gs : GameState) (w : World) : World :=
  { w with bodies := w.bodies.map fun b => { b with vel := rescaleVelocity gs.entitySpeed b.vel } }

/-! ### Body creation (main.cpp:224-269) -/

/-- The validity check of `CreateEntity`: a candidate is rejected when it lies
within `entitySize * 2` of any existing body. -/
def candidateValid (entitySize : ℝ) (existing : List Body) (c : Vector3) : Bool :=
  existing.all fun b => ! decide (Vector3Distance c b.pos < entitySize * 2)

/-- The do-while retry loop of `CreateEntity`: draw sample `i`, stop when it is
valid or when `retries = i + 1` reaches 100; returns the last candidate, its
validity, and the number of samples drawn. -/
def placementLoop (samples : ℕ → Vector3) (valid : Vector3 → Bool) :
    ℕ → ℕ → Vector3 × Bool × ℕ
  | i, 0 => (samples i, valid (samples i), i + 1)
  | i, f + 1 =>
    if valid (samples i) = true ∨ ¬ i + 1 < 100 then (samples i, valid (samples i), i + 1)
    else placementLoop samples valid (i + 1) f

/-- Function `CreateEntity`: returns the created body (if any), whether the placement
failure was reported to the log, and the number of samples drawn.  `samples` is
the stream of uniform draws from
`[-gridSize + entitySize, gridSize - entitySize]^2`, `rv` the random initial
direction, `freshColor`/`newId` the tag and identity of the new body. -/
def CreateEntity (gs : GameState) (samples : ℕ → Vector3) (rv : Vector3)
    (freshColor : ℕ) (newId : ℕ) (existing : List Body) : Option Body × Bool × ℕ :=
  if (placementLoop samples (candidateValid gs.entitySize existing) 0 100).2.1 = true then
    (some { id := newId
            pos := (placementLoop samples (candidateValid gs.entitySize existing) 0 100).1
            vel := Vector3Scale (Vector3Normalize rv) gs.entitySpeed
            color := freshColor, cell := (0, 0), resp := respZero },
     false, (placementLoop samples (candidateValid gs.entitySize existing) 0 100).2.2)
  else (none, true, (placementLoop samples (candidateValid gs.entitySize existing) 0 100).2.2)

/-! ### Vector algebra lemmas -/

theorem Vector3Length_nonneg (v : Vector3) : 0 ≤ Vector3Length v := Real.sqrt_nonneg _

theorem Vector3Length_eq_zero_iff (v : Vector3) : Vector3Length v = 0 ↔ v = Vector3Zero := by
  unfold Vector3Length
  rw [Real.sqrt_eq_zero']
  constructor
  · intro h
    have hx := mul_self_nonneg v.x
    have hy := mul_self_nonneg v.y
    have hz := mul_self_nonneg v.z
    have ex : v.x = 0 := mul_self_eq_zero.mp (by nlinarith)
    have ey : v.y = 0 := mul_self_eq_zero.mp (by nlinarith)
    have ez : v.z = 0 := mul_self_eq_zero.mp (by nlinarith)
    apply Vector3.ext <;> simp [Vector3Zero, ex, ey, ez]
  · intro h
    subst h
    norm_num [Vector3Zero]

theorem Vector3Length_pos (v : Vector3) (h : v ≠ Vector3Zero) : 0 < Vector3Length v := by
  rcases lt_or_eq_of_le (Vector3Length_nonneg v) with h' | h'
  · exact h'
  · exact absurd ((Vector3Length_eq_zero_iff v).mp h'.symm) h

theorem Vector3Length_scale (v : Vector3) (s : ℝ) :
    Vector3Length (Vector3Scale v s) = |s| * Vector3Length v := by
  unfold Vector3Length Vector3Scale
  rw [show v.x * s * (v.x * s) + v.y * s * (v.y * s) + v.z * s * (v.z * s)
      = s * s * (v.x * v.x + v.y * v.y + v.z * v.z) by ring]
  rw [Real.sqrt_mul (mul_self_nonneg s), Real.sqrt_mul_self_eq_abs]

theorem Vector3Normalize_of_ne (v : Vector3) (h : v ≠ Vector3Zero) :
    Vector3Normalize v = Vector3Scale v (1 / Vector3Length v) := by
  unfold Vector3Normalize
  rw [if_neg]
  exact fun hl => h ((Vector3Length_eq_zero_iff v).mp hl)

theorem Vector3Length_normalize (v : Vector3) (h : v ≠ Vector3Zero) :
    Vector3Length (Vector3Normalize v) = 1 := by
  rw [Vector3Normalize_of_ne v h, Vector3Length_scale]
  have hp := Vector3Length_pos v h
  rw [abs_of_pos (by positivity)]
  field_simp

theorem rescale_length (v : Vector3) (s : ℝ) (hv : v ≠ Vector3Zero) (hs : 0 < s) :
    Vector3Length (rescaleVelocity s v) = s := by
  unfold rescaleVelocity
  rw [Vector3Length_scale, Vector3Length_normalize v hv, abs_of_pos hs, mul_one]

theorem rescale_normalize (v : Vector3) (s : ℝ) (hv : v ≠ Vector3Zero) (hs : 0 < s) :
    Vector3Normalize (rescaleVelocity s v) = Vector3Normalize v := by
  have hlen : Vector3Length (rescaleVelocity s v) = s := rescale_length v s hv hs
  have hne : rescaleVelocity s v ≠ Vector3Zero := by
    intro he
    rw [he, (Vector3Length_eq_zero_iff _).mpr rfl] at hlen
    exact absurd hlen.symm (ne_of_gt hs)
  rw [Vector3Normalize_of_ne _ hne, hlen]
  unfold rescaleVelocity
  rw [Vector3Normalize_of_ne v hv]
  unfold Vector3Scale
  have hs' : s ≠ 0 := ne_of_gt hs
  have hL : Vector3Length v ≠ 0 := ne_of_gt (Vector3Length_pos v hv)
  apply Vector3.ext <;> (simp only []; field_simp; ring)

/-- Claim C8 (amended, positive speed): on a `GameState` write, every live
velocity is immediately replaced by `normalize(velocity) * entitySpeed`; for a
nonzero velocity and a positive new speed the result keeps the direction of
`v` and has length exactly the new speed. -/
theorem C8_speed_rescale_preserves_direction (gs : GameState) (w : World) (v : Vector3)
    (hv : v ≠ Vector3Zero) (hs : 0 < gs.entitySpeed) :
    ((GameStateObserver gs w).bodies =
      w.bodies.map fun b => { b with vel := Vector3Scale (Vector3Normalize b.vel) gs.entitySpeed }) ∧
    Vector3Length (rescaleVelocity gs.entitySpeed v) = gs.entitySpeed ∧
    Vector3Normalize (rescaleVelocity gs.entitySpeed v) = Vector3Normalize v :=
  ⟨rfl, rescale_length v _ hv hs, rescale_normalize v _ hv hs⟩

theorem exUnit_ne_zero : (⟨1, 0, 0⟩ : Vector3) ≠ Vector3Zero := by
  intro h
  have := congrArg Vector3.x h
  norm_num [Vector3Zero] at this

theorem normalize_exUnit : Vector3Normalize ⟨1, 0, 0⟩ = (⟨1, 0, 0⟩ : Vector3) := by
  unfold Vector3Normalize Vector3Length Vector3Scale
  norm_num

/-- Claim C8, counterexample: the claim quantifies over every new speed, but at
speed `0` (reachable from the GUI slider) the rescaled velocity is the zero
vector, whose normalization is not the direction of the original velocity. -/
theorem C8_counterexample_zero_speed :
    ¬ (∀ (s : ℝ) (v : Vector3), v ≠ Vector3Zero →
        Vector3Length (rescaleVelocity s v) = s ∧
        Vector3Normalize (rescaleVelocity s v) = Vector3Normalize v) := by
  intro hfull
  have h := (hfull 0 ⟨1, 0, 0⟩ exUnit_ne_zero).2
  rw [normalize_exUnit] at h
  have hzero : rescaleVelocity 0 ⟨1, 0, 0⟩ = Vector3Zero := by
    unfold rescaleVelocity
    rw [normalize_exUnit]
    unfold Vector3Scale Vector3Zero
    norm_num
  rw [hzero] at h
  have hx := congrArg Vector3.x h
  unfold Vector3Normalize Vector3Length at hx
  norm_num [Vector3Zero] at hx

/-- Witness for C8 at speed `2` and velocity `(1,0,0)`. -/
theorem C8_speed_rescale_witness :
    ((⟨1, 0, 0⟩ : Vector3) ≠ Vector3Zero) ∧
    (0 : ℝ) < ({ entitySpeed := 2 } : GameState).entitySpeed ∧
    Vector3Length (rescaleVelocity ({ entitySpeed := 2 } : GameState).entitySpeed ⟨1, 0, 0⟩) = 2 :=
  ⟨exUnit_ne_zero, by norm_num,
    (C8_speed_rescale_preserves_direction { entitySpeed := 2 } ⟨[], fun _ => []⟩ ⟨1, 0, 0⟩
      exUnit_ne_zero (by norm_num)).2.1⟩

/-! ### Detection never touches position, velocity, color or cell -/

/-- All components of a body except its collision-response accumulator. -/
def bodyCore (b : Body) : ℕ × Vector3 × Vector3 × ℕ × (Int × Int) :=
  (b.id, b.pos, b.vel, b.color, b.cell)

theorem bodyCore_resp_update (f : CollisionResponse → CollisionResponse) (b : Body) :
    bodyCore { b with resp := f b.resp } = bodyCore b := rfl

theorem mapBody_core (i : ℕ) (f : Body → Body) (h : ∀ b, bodyCore (f b) = bodyCore b)
    (bs : List Body) : (mapBody i f bs).map bodyCore = bs.map bodyCore := by
  unfold mapBody
  rw [List.map_map]
  apply List.map_congr_left
  intro b _
  by_cases hb : b.id = i <;> simp [hb, h]

theorem interactPair_core (r : ℝ) (i j : ℕ) (bs : List Body) :
    (interactPair r i j bs).map bodyCore = bs.map bodyCore := by
  unfold interactPair
  cases h1 : findBody i bs <;> cases h2 : findBody j bs
  · rfl
  · rfl
  · rfl
  · simp only []
    split
    · refine Eq.trans (mapBody_core _ _ ?_ _) (mapBody_core _ _ ?_ _) <;> exact fun b => rfl
    · rfl

theorem foldl_core {β : Type} (g : List Body → β → List Body)
    (h : ∀ bs x, (g bs x).map bodyCore = bs.map bodyCore) :
    ∀ (l : List β) (bs : List Body), (l.foldl g bs).map bodyCore = bs.map bodyCore := by
  intro l
  induction l with
  | nil => intro bs; rfl
  | cons x xs ih => intro bs; rw [List.foldl_cons, ih, h]

theorem DetectEntitiesBody_core (r : ℝ) (bk : Int → List ℕ) (i : ℕ) (bs : List Body) :
    (DetectEntitiesBody r bk i bs).map bodyCore = bs.map bodyCore := by
  unfold DetectEntitiesBody
  cases findBody i bs
  · rfl
  · exact foldl_core _ (fun bs (p : ℕ × ℕ) => interactPair_core r p.1 p.2 bs) _ bs

theorem DetectGridEntityBody_core (gs : GameState) (b : Body) :
    bodyCore (DetectGridEntityBody gs b) = bodyCore b := rfl

/-- Claim C3: the detection steps of a frame (entity-entity and
entity-boundary) mutate no live position, velocity, color or spatial
cell: they write only into the per-body `CollisionResponse` accumulators.
The spatial-hash build step likewise leaves position and velocity alone. -/
theorem C3_detection_mutates_only_accumulators (gs : GameState) (w : World) :
    ((DetectEntitiesCollision gs w).bodies.map bodyCore = w.bodies.map bodyCore) ∧
    ((DetectGridEntityCollision gs w).bodies.map bodyCore = w.bodies.map bodyCore) ∧
    ((UpdateSpatialCell gs w).bodies.map (fun b => (b.id, b.pos, b.vel, b.color)) =
      w.bodies.map fun b => (b.id, b.pos, b.vel, b.color)) ∧
    ((ClearSpatialBuckets w).bodies = w.bodies) := by
  refine ⟨?_, ?_, ?_, rfl⟩
  · unfold DetectEntitiesCollision
    exact foldl_core _ (fun bs i => DetectEntitiesBody_core (gs.entitySize * 2) w.buckets i bs) _ _
  · unfold DetectGridEntityCollision
    simp only [List.map_map]
    apply List.map_congr_left
    intro b _
    exact DetectGridEntityBody_core gs b
  · unfold UpdateSpatialCell
    simp only [List.map_map]
    apply List.map_congr_left
    intro b _
    rfl

/-- Claim C10: a body whose `hasCollision` flag is false is left completely
unchanged by the response-application step (position, velocity, color and
accumulator all identical), and that step touches bodies only through the
per-body callback. -/
theorem C10_apply_skips_unflagged (fresh : ℕ → ℕ) (w : World) (b : Body)
    (h : b.resp.hasCollision = false) :
    ApplyCollisionResponseBody fresh b = b ∧
    (ApplyCollisionResponse fresh w).bodies = w.bodies.map (ApplyCollisionResponseBody fresh) := by
  constructor
  · unfold ApplyCollisionResponseBody
    rw [if_pos h]
  · rfl

/-- Witness for C10: an unflagged body passes through the application step
untouched. -/
theorem C10_apply_skips_unflagged_witness :
    ({ id := 3, pos := ⟨1, 2, 0⟩, vel := ⟨4, 5, 0⟩, color := 9, cell := (0, 0),
       resp := respZero } : Body).resp.hasCollision = false ∧
    ApplyCollisionResponseBody (fun _ => 0)
      { id := 3, pos := ⟨1, 2, 0⟩, vel := ⟨4, 5, 0⟩, color := 9, cell := (0, 0),
        resp := respZero } =
      { id := 3, pos := ⟨1, 2, 0⟩, vel := ⟨4, 5, 0⟩, color := 9, cell := (0, 0),
        resp := respZero } :=
  ⟨rfl, (C10_apply_skips_unflagged (fun _ => 0) ⟨[], fun _ => []⟩ _ rfl).1⟩

/-- Claim C7: within a frame, response application runs strictly before
integration; a flagged body gets `posDelta` added to its position, `velDelta`
added to its velocity, a fresh color, and a reset accumulator; integration then
advances the position of every body by `velocity * min(dt, 0.33)`. -/
theorem C7_apply_then_integrate (gs : GameState) (fresh : ℕ → ℕ) (dt : ℝ) (w : World)
    (b : Body) (hb : b.resp.hasCollision = true) :
    (FrameStep gs fresh dt w =
      MoveEntities dt (ApplyCollisionResponse fresh (DetectGridEntityCollision gs
        (DetectEntitiesCollision gs (UpdateSpatialCell gs (ClearSpatialBuckets w)))))) ∧
    (ApplyCollisionResponseBody fresh b =
      { b with pos := Vector3Add b.pos b.resp.posDelta,
               vel := Vector3Add b.vel b.resp.velDelta,
               color := fresh b.id, resp := respZero }) ∧
    (∀ b' : Body, MoveEntitiesBody dt b' =
      { b' with pos := Vector3Add b'.pos (Vector3Scale b'.vel (min dt 0.33)) }) ∧
    ((MoveEntitiesBody dt (ApplyCollisionResponseBody fresh b)).pos =
      Vector3Add (Vector3Add b.pos b.resp.posDelta)
        (Vector3Scale (Vector3Add b.vel b.resp.velDelta) (min dt 0.33))) := by
  have happ : ApplyCollisionResponseBody fresh b =
      { b with pos := Vector3Add b.pos b.resp.posDelta,
               vel := Vector3Add b.vel b.resp.velDelta,
               color := fresh b.id, resp := respZero } := by
    unfold ApplyCollisionResponseBody
    rw [if_neg (by simp [hb])]
    rfl
  refine ⟨rfl, happ, fun b' => rfl, ?_⟩
  rw [happ]
  rfl

/-- Witness for C7 on a concrete flagged body. -/
theorem C7_apply_then_integrate_witness :
    ({ id := 2, pos := ⟨1, 0, 0⟩, vel := ⟨3, 0, 0⟩, color := 0, cell := (0, 0),
       resp := { posDelta := ⟨5, 0, 0⟩, velDelta := ⟨7, 0, 0⟩, hasCollision := true } } :
        Body).resp.hasCollision = true ∧
    ((MoveEntitiesBody 1 (ApplyCollisionResponseBody (fun _ => 4)
      { id := 2, pos := ⟨1, 0, 0⟩, vel := ⟨3, 0, 0⟩, color := 0, cell := (0, 0),
        resp := { posDelta := ⟨5, 0, 0⟩, velDelta := ⟨7, 0, 0⟩, hasCollision := true } })).pos =
      Vector3Add (Vector3Add ⟨1, 0, 0⟩ ⟨5, 0, 0⟩)
        (Vector3Scale (Vector3Add ⟨3, 0, 0⟩ ⟨7, 0, 0⟩) (min 1 0.33))) :=
  ⟨rfl, (C7_apply_then_integrate {} (fun _ => 4) 1 ⟨[], fun _ => []⟩ _ rfl).2.2.2⟩

/-! ### The accumulator invariant: an unflagged accumulator is zero -/

def flagInv (bs : List Body) : Prop :=
  ∀ b ∈ bs, b.resp.hasCollision = false → b.resp = respZero

theorem flagInv_mapBody_addResp (i : ℕ) (dp dv : Vector3) {bs : List Body} (h : flagInv bs) :
    flagInv (mapBody i (fun b => { b with resp := addResp dp dv b.resp }) bs) := by
  intro b hb hflag
  unfold mapBody at hb
  rw [List.mem_map] at hb
  obtain ⟨a, ha, rfl⟩ := hb
  by_cases hai : a.id = i
  · rw [if_pos hai] at hflag
    exact absurd hflag (by simp [addResp])
  · rw [if_neg hai] at hflag ⊢
    exact h a ha hflag

theorem flagInv_interactPair (r : ℝ) (i j : ℕ) {bs : List Body} (h : flagInv bs) :
    flagInv (interactPair r i j bs) := by
  unfold interactPair
  cases findBody i bs <;> cases findBody j bs
  · exact h
  · exact h
  · exact h
  · simp only []
    split
    · exact flagInv_mapBody_addResp _ _ _ (flagInv_mapBody_addResp _ _ _ h)
    · exact h

theorem flagInv_foldl {β : Type} (g : List Body → β → List Body)
    (h : ∀ bs x, flagInv bs → flagInv (g bs x)) :
    ∀ (l : List β) {bs : List Body}, flagInv bs → flagInv (l.foldl g bs) := by
  intro l
  induction l with
  | nil => intro bs hb; exact hb
  | cons x xs ih => intro bs hb; rw [List.foldl_cons]; exact ih (h bs x hb)

theorem flagInv_DetectEntitiesBody (r : ℝ) (bk : Int → List ℕ) (i : ℕ) {bs : List Body}
    (h : flagInv bs) : flagInv (DetectEntitiesBody r bk i bs) := by
  unfold DetectEntitiesBody
  cases findBody i bs
  · exact h
  · exact flagInv_foldl _ (fun bs p hp => flagInv_interactPair r p.1 p.2 hp) _ h

theorem gridResp_flag_or_id (gs : GameState) (p v : Vector3) (resp : CollisionResponse) :
    (gridResp gs p v resp).hasCollision = true ∨ gridResp gs p v resp = resp := by
  unfold gridResp
  split <;> split <;> split <;> split <;> simp

theorem flagInv_DetectGrid (gs : GameState) {bs : List Body} (h : flagInv bs) :
    flagInv (bs.map (DetectGridEntityBody gs)) := by
  intro b hb hflag
  rw [List.mem_map] at hb
  obtain ⟨a, ha, rfl⟩ := hb
  show gridResp gs a.pos a.vel a.resp = respZero
  have hflag' : (gridResp gs a.pos a.vel a.resp).hasCollision = false := hflag
  rcases gridResp_flag_or_id gs a.pos a.vel a.resp with hf | hid
  · rw [hf] at hflag'
    cases hflag'
  · rw [hid] at hflag' ⊢
    exact h a ha hflag'

theorem apply_zero_of_flagInv (fresh : ℕ → ℕ) {bs : List Body} (h : flagInv bs) :
    ∀ b ∈ bs.map (ApplyCollisionResponseBody fresh), b.resp = respZero := by
  intro b hb
  rw [List.mem_map] at hb
  obtain ⟨a, ha, rfl⟩ := hb
  unfold ApplyCollisionResponseBody
  by_cases hf : a.resp.hasCollision = false
  · rw [if_pos hf]
    exact h a ha hf
  · rw [if_neg hf]
    rfl

theorem UpdateSpatialCell_resps (gs : GameState) (w : World) :
    (UpdateSpatialCell gs w).bodies.map Body.resp = w.bodies.map Body.resp := by
  unfold UpdateSpatialCell
  simp only [List.map_map]
  rfl

theorem MoveEntities_resps (dt : ℝ) (w : World) :
    (MoveEntities dt w).bodies.map Body.resp = w.bodies.map Body.resp := by
  unfold MoveEntities
  simp only [List.map_map]
  rfl

theorem flagInv_of_resps_eq {bs bs' : List Body} (h : bs.map Body.resp = bs'.map Body.resp)
    (hi : flagInv bs') : flagInv bs := by
  intro b hb hf
  have hmem : b.resp ∈ bs'.map Body.resp := h ▸ List.mem_map_of_mem Body.resp hb
  rw [List.mem_map] at hmem
  obtain ⟨a, ha, he⟩ := hmem
  exact he ▸ hi a ha (by rw [he]; exact hf)

theorem respsZero_of_resps_eq {bs bs' : List Body} (h : bs.map Body.resp = bs'.map Body.resp)
    (hz : ∀ b ∈ bs', b.resp = respZero) : ∀ b ∈ bs, b.resp = respZero := by
  intro b hb
  have hmem : b.resp ∈ bs'.map Body.resp := h ▸ List.mem_map_of_mem Body.resp hb
  rw [List.mem_map] at hmem
  obtain ⟨a, ha, he⟩ := hmem
  exact he ▸ hz a ha

/-- Claim C4: starting a frame with all accumulators zero, after the
response-application step every live accumulator is zero again
(`hasCollision = false`, both deltas zero), and it stays zero through the rest
of the frame (integration) and through the clear and spatial-hash build of the next frame
build, i.e. until the next detection phase begins. -/
theorem C4_accumulators_zero_after_apply (gs gsNext : GameState) (fresh : ℕ → ℕ) (dt : ℝ)
    (w : World) (h : ∀ b ∈ w.bodies, b.resp = respZero) :
    (∀ b ∈ (ApplyCollisionResponse fresh (DetectGridEntityCollision gs
        (DetectEntitiesCollision gs (UpdateSpatialCell gs (ClearSpatialBuckets w))))).bodies,
      b.resp = respZero) ∧
    (∀ b ∈ (FrameStep gs fresh dt w).bodies, b.resp = respZero) ∧
    (∀ b ∈ (UpdateSpatialCell gsNext (ClearSpatialBuckets (FrameStep gs fresh dt w))).bodies,
      b.resp = respZero) := by
  have h0 : flagInv w.bodies := fun b hb _ => h b hb
  have h1 : flagInv (UpdateSpatialCell gs (ClearSpatialBuckets w)).bodies :=
    flagInv_of_resps_eq (UpdateSpatialCell_resps gs (ClearSpatialBuckets w)) h0
  have h2 : flagInv (DetectEntitiesCollision gs
      (UpdateSpatialCell gs (ClearSpatialBuckets w))).bodies := by
    unfold DetectEntitiesCollision
    exact flagInv_foldl _ (fun bs i hi => flagInv_DetectEntitiesBody _ _ i hi) _ h1
  have h3 : flagInv (DetectGridEntityCollision gs (DetectEntitiesCollision gs
      (UpdateSpatialCell gs (ClearSpatialBuckets w)))).bodies :=
    flagInv_DetectGrid gs h2
  have h4 : ∀ b ∈ (ApplyCollisionResponse fresh (DetectGridEntityCollision gs
      (DetectEntitiesCollision gs (UpdateSpatialCell gs (ClearSpatialBuckets w))))).bodies,
      b.resp = respZero := apply_zero_of_flagInv fresh h3
  have h5 : ∀ b ∈ (FrameStep gs fresh dt w).bodies, b.resp = respZero :=
    respsZero_of_resps_eq (MoveEntities_resps dt _) h4
  exact ⟨h4, h5, respsZero_of_resps_eq (UpdateSpatialCell_resps gsNext _) h5⟩

/-- A small concrete world used by several witnesses. -/
def demoBody : Body :=
  { id := 1, pos := ⟨10, 0, 0⟩, vel := ⟨1500, 0, 0⟩, color := 0, cell := (0, 0), resp := respZero }

def demoWorld : World := { bodies := [demoBody], buckets := fun _ => [] }

/-- Witness for C4 on a one-body world with a zero accumulator. -/
theorem C4_accumulators_zero_witness :
    (∀ b ∈ demoWorld.bodies, b.resp = respZero) ∧
    (∀ b ∈ (FrameStep {} (fun _ => 0) 1 demoWorld).bodies, b.resp = respZero) := by
  have hz : ∀ b ∈ demoWorld.bodies, b.resp = respZero := by
    intro b hb
    rw [show demoWorld.bodies = [demoBody] from rfl, List.mem_singleton] at hb
    rw [hb]
    rfl
  exact ⟨hz, (C4_accumulators_zero_after_apply {} {} (fun _ => 0) 1 demoWorld hz).2.1⟩

/-! ### Boundary detection (claim C6) -/

theorem normalize_of_length_one (v : Vector3) (h : Vector3Length v = 1) :
    Vector3Normalize v = v := by
  unfold Vector3Normalize
  rw [if_neg (by rw [h]; norm_num), h]
  unfold Vector3Scale
  apply Vector3.ext <;> simp

theorem length_axis_x (s : ℝ) (hs : s = 1 ∨ s = -1) :
    Vector3Length ⟨s, 0, 0⟩ = 1 := by
  unfold Vector3Length
  rcases hs with rfl | rfl <;> norm_num

theorem length_axis_y (s : ℝ) (hs : s = 1 ∨ s = -1) :
    Vector3Length ⟨0, s, 0⟩ = 1 := by
  unfold Vector3Length
  rcases hs with rfl | rfl <;> norm_num
/-- The combined inward normal accumulated by the four wall tests of
`DeclareDetectGridEntityCollision`: the sum of the unit inward normals of the
violated walls (left, right, bottom, top, in code order). -/
def wallNormal (gs : GameState) (p v : Vector3) : Vector3 :=
  ⟨(if p.x - gs.entitySize < -gs.gridSize ∧ v.x < 0 then 1 else 0) +
    (if p.x + gs.entitySize > gs.gridSize ∧ v.x > 0 then -1 else 0),
   (if p.y - gs.entitySize < -gs.gridSize ∧ v.y < 0 then 1 else 0) +
    (if p.y + gs.entitySize > gs.gridSize ∧ v.y > 0 then -1 else 0), 0⟩

/-- The combined position fix accumulated by the four wall tests: per axis, the
sum of the per-wall overlap corrections. -/
def wallPosFix (gs : GameState) (p v : Vector3) : Vector3 :=
  ⟨(if p.x - gs.entitySize < -gs.gridSize ∧ v.x < 0 then
      (-gs.gridSize + gs.entitySize) - p.x else 0) +
    (if p.x + gs.entitySize > gs.gridSize ∧ v.x > 0 then
      (gs.gridSize - gs.entitySize) - p.x else 0),
   (if p.y - gs.entitySize < -gs.gridSize ∧ v.y < 0 then
      (-gs.gridSize + gs.entitySize) - p.y else 0) +
    (if p.y + gs.entitySize > gs.gridSize ∧ v.y > 0 then
      (gs.gridSize - gs.entitySize) - p.y else 0), 0⟩

/-- Closed form of the wall-bounce computation, for an arbitrary incoming
accumulator: on any violation (single wall or corner) the deltas are added
onto the incoming accumulator, never overwritten, and the velocity delta
reflects about the combined normal, normalized when nonzero. -/
theorem gridResp_eq (gs : GameState) (p v : Vector3) (resp : CollisionResponse) :
    gridResp gs p v resp =
      if (p.x - gs.entitySize < -gs.gridSize ∧ v.x < 0) ∨
         (p.x + gs.entitySize > gs.gridSize ∧ v.x > 0) ∨
         (p.y - gs.entitySize < -gs.gridSize ∧ v.y < 0) ∨
         (p.y + gs.entitySize > gs.gridSize ∧ v.y > 0) then
        { posDelta := Vector3Add resp.posDelta (wallPosFix gs p v)
          velDelta := Vector3Add resp.velDelta (Vector3Subtract (Vector3Reflect v
            (if Vector3Length (wallNormal gs p v) > 0 then
              Vector3Normalize (wallNormal gs p v) else wallNormal gs p v)) v)
          hasCollision := true }
      else resp := by
  by_cases hL : p.x - gs.entitySize < -gs.gridSize ∧ v.x < 0 <;>
    by_cases hR : p.x + gs.entitySize > gs.gridSize ∧ v.x > 0 <;>
    by_cases hB : p.y - gs.entitySize < -gs.gridSize ∧ v.y < 0 <;>
    by_cases hT : p.y + gs.entitySize > gs.gridSize ∧ v.y > 0 <;>
    simp [gridResp, wallNormal, wallPosFix, Vector3Add, hL, hR, hB, hT]

/-- Violated walls always leave a nonzero combined normal: opposite walls of
one axis exclude each other through the velocity sign. -/
theorem wallNormal_ne_zero (gs : GameState) (p v : Vector3)
    (hb : (p.x - gs.entitySize < -gs.gridSize ∧ v.x < 0) ∨
          (p.x + gs.entitySize > gs.gridSize ∧ v.x > 0) ∨
          (p.y - gs.entitySize < -gs.gridSize ∧ v.y < 0) ∨
          (p.y + gs.entitySize > gs.gridSize ∧ v.y > 0)) :
    wallNormal gs p v ≠ Vector3Zero := by
  intro he
  rcases hb with h | h | h | h
  · have hn : ¬(p.x + gs.entitySize > gs.gridSize ∧ v.x > 0) := by
      rintro ⟨-, hv⟩
      linarith [h.2]
    have hx := congrArg Vector3.x he
    simp [wallNormal, h, hn, Vector3Zero] at hx
  · have hn : ¬(p.x - gs.entitySize < -gs.gridSize ∧ v.x < 0) := by
      rintro ⟨-, hv⟩
      linarith [h.2]
    have hx := congrArg Vector3.x he
    simp [wallNormal, h, hn, Vector3Zero] at hx
  · have hn : ¬(p.y + gs.entitySize > gs.gridSize ∧ v.y > 0) := by
      rintro ⟨-, hv⟩
      linarith [h.2]
    have hy := congrArg Vector3.y he
    simp [wallNormal, h, hn, Vector3Zero] at hy
  · have hn : ¬(p.y - gs.entitySize < -gs.gridSize ∧ v.y < 0) := by
      rintro ⟨-, hv⟩
      linarith [h.2]
    have hy := congrArg Vector3.y he
    simp [wallNormal, h, hn, Vector3Zero] at hy

/-- On any violation the combined normal is nonzero, its normalization has unit
length, and the response adds the position fix and the reflected-velocity delta
onto whatever accumulator came in. -/
theorem gridResp_violated (gs : GameState) (p v : Vector3) (resp : CollisionResponse)
    (hb : (p.x - gs.entitySize < -gs.gridSize ∧ v.x < 0) ∨
          (p.x + gs.entitySize > gs.gridSize ∧ v.x > 0) ∨
          (p.y - gs.entitySize < -gs.gridSize ∧ v.y < 0) ∨
          (p.y + gs.entitySize > gs.gridSize ∧ v.y > 0)) :
    0 < Vector3Length (wallNormal gs p v) ∧
    Vector3Length (Vector3Normalize (wallNormal gs p v)) = 1 ∧
    gridResp gs p v resp =
      { posDelta := Vector3Add resp.posDelta (wallPosFix gs p v)
        velDelta := Vector3Add resp.velDelta (Vector3Subtract
          (Vector3Reflect v (Vector3Normalize (wallNormal gs p v))) v)
        hasCollision := true } := by
  have hne := wallNormal_ne_zero gs p v hb
  have hpos := Vector3Length_pos _ hne
  refine ⟨hpos, Vector3Length_normalize _ hne, ?_⟩
  rw [gridResp_eq, if_pos hb, if_pos hpos]

theorem wallPosFix_left (gs : GameState) (p v : Vector3)
    (h : p.x - gs.entitySize < -gs.gridSize ∧ v.x < 0) :
    p.x + (wallPosFix gs p v).x = -gs.gridSize + gs.entitySize := by
  have hn : ¬(p.x + gs.entitySize > gs.gridSize ∧ v.x > 0) := by
    rintro ⟨-, hv⟩
    linarith [h.2]
  rw [show (wallPosFix gs p v).x = (-gs.gridSize + gs.entitySize) - p.x from by
    simp [wallPosFix, h, hn]]
  ring

theorem wallPosFix_right (gs : GameState) (p v : Vector3)
    (h : p.x + gs.entitySize > gs.gridSize ∧ v.x > 0) :
    p.x + (wallPosFix gs p v).x = gs.gridSize - gs.entitySize := by
  have hn : ¬(p.x - gs.entitySize < -gs.gridSize ∧ v.x < 0) := by
    rintro ⟨-, hv⟩
    linarith [h.2]
  rw [show (wallPosFix gs p v).x = (gs.gridSize - gs.entitySize) - p.x from by
    simp [wallPosFix, h, hn]]
  ring

theorem wallPosFix_bottom (gs : GameState) (p v : Vector3)
    (h : p.y - gs.entitySize < -gs.gridSize ∧ v.y < 0) :
    p.y + (wallPosFix gs p v).y = -gs.gridSize + gs.entitySize := by
  have hn : ¬(p.y + gs.entitySize > gs.gridSize ∧ v.y > 0) := by
    rintro ⟨-, hv⟩
    linarith [h.2]
  rw [show (wallPosFix gs p v).y = (-gs.gridSize + gs.entitySize) - p.y from by
    simp [wallPosFix, h, hn]]
  ring

theorem wallPosFix_top (gs : GameState) (p v : Vector3)
    (h : p.y + gs.entitySize > gs.gridSize ∧ v.y > 0) :
    p.y + (wallPosFix gs p v).y = gs.gridSize - gs.entitySize := by
  have hn : ¬(p.y - gs.entitySize < -gs.gridSize ∧ v.y < 0) := by
    rintro ⟨-, hv⟩
    linarith [h.2]
  rw [show (wallPosFix gs p v).y = (gs.gridSize - gs.entitySize) - p.y from by
    simp [wallPosFix, h, hn]]
  ring

/-- The arena and body of the boundary scenario in the spec. -/
def c6GS : GameState := { gridSize := 250, entitySize := 10 }

def c6Body : Body :=
  { id := 1, pos := ⟨245, 0, 0⟩, vel := ⟨100, 0, 0⟩, color := 0, cell := (0, 0), resp := respZero }

/-- A corner variant of the scenario body: it violates the right and the top
wall at once, so the combined normal sums two unit normals. -/
def c6Corner : Body :=
  { id := 2, pos := ⟨245, 245, 0⟩, vel := ⟨100, 100, 0⟩, color := 0, cell := (0, 0),
    resp := respZero }

theorem c6_scen_normal : wallNormal c6GS c6Body.pos c6Body.vel = ⟨-1, 0, 0⟩ := by
  unfold wallNormal
  norm_num [c6GS, c6Body]

theorem c6_scen_fix : wallPosFix c6GS c6Body.pos c6Body.vel = ⟨-5, 0, 0⟩ := by
  unfold wallPosFix
  norm_num [c6GS, c6Body]

theorem c6_normalize_negx : Vector3Normalize ⟨-1, 0, 0⟩ = (⟨-1, 0, 0⟩ : Vector3) :=
  normalize_of_length_one _ (length_axis_x (-1) (Or.inr rfl))

theorem c6_refl_x : Vector3Reflect c6Body.vel ⟨-1, 0, 0⟩ = (⟨-100, 0, 0⟩ : Vector3) := by
  show Vector3Reflect ⟨100, 0, 0⟩ ⟨-1, 0, 0⟩ = (⟨-100, 0, 0⟩ : Vector3)
  unfold Vector3Reflect Vector3DotProduct Vector3Scale Vector3Subtract
  norm_num

theorem c6_corner_normal : wallNormal c6GS c6Corner.pos c6Corner.vel = ⟨-1, -1, 0⟩ := by
  unfold wallNormal
  norm_num [c6GS, c6Corner]

theorem c6_corner_fix : wallPosFix c6GS c6Corner.pos c6Corner.vel = ⟨-5, -5, 0⟩ := by
  unfold wallPosFix
  norm_num [c6GS, c6Corner]

theorem c6_corner_len : Vector3Length ⟨-1, -1, 0⟩ = Real.sqrt 2 := by
  unfold Vector3Length
  norm_num

theorem c6_corner_normalize : Vector3Normalize ⟨-1, -1, 0⟩ =
    (⟨-(1 / Real.sqrt 2), -(1 / Real.sqrt 2), 0⟩ : Vector3) := by
  have hne : (⟨-1, -1, 0⟩ : Vector3) ≠ Vector3Zero := by
    intro he
    have hx := congrArg Vector3.x he
    norm_num [Vector3Zero] at hx
  rw [Vector3Normalize_of_ne _ hne, c6_corner_len]
  unfold Vector3Scale
  apply Vector3.ext <;> (simp only []; ring)

theorem c6_corner_reflect :
    Vector3Reflect c6Corner.vel (Vector3Normalize ⟨-1, -1, 0⟩) = (⟨-100, -100, 0⟩ : Vector3) := by
  show Vector3Reflect ⟨100, 100, 0⟩ (Vector3Normalize ⟨-1, -1, 0⟩) = (⟨-100, -100, 0⟩ : Vector3)
  rw [c6_corner_normalize]
  unfold Vector3Reflect Vector3DotProduct Vector3Scale Vector3Subtract
  have hs : Real.sqrt 2 * Real.sqrt 2 = 2 := Real.mul_self_sqrt (by norm_num)
  have hs2 : Real.sqrt 2 ^ 2 = 2 := Real.sq_sqrt (by norm_num)
  have hs0 : Real.sqrt 2 ≠ 0 := by
    intro h0
    rw [h0] at hs
    norm_num at hs
  apply Vector3.ext <;> (simp only []; field_simp) <;> nlinarith [hs, hs2]

/-- Claim C6: for every body state and every incoming accumulator value, the
boundary detector flags exactly when the flag was already set or some wall
fails both the edge test and the velocity test; on any violation (single wall
or corner) the combined normal (the sum of the unit inward normals of the
violated walls) is nonzero, its normalization has unit length, and the
positional correction together with the velocity delta
`reflect(v, normalize(combined normal)) - v` is ADDED onto the incoming
accumulator, never overwriting it; each violated wall contributes the
correction that puts the edge of the body exactly back on that wall; a body
with no violated wall keeps its accumulator untouched; the detector writes
only the per-body accumulator that entity-entity detection also writes; in the
concrete scenario (radius 10, position `(245,0)`, velocity `(100,0,0)`,
half-extent 250) the right wall is flagged, the corrected position is back
inside `[-240, 240]`, and the x-velocity is reflected to `-100`; in the corner
variant at `(245,245)` with velocity `(100,100,0)` both components are
corrected to 240 and both velocity components reflect to `-100`; and on an
accumulator already holding entity-entity deltas the wall deltas are summed
on top. -/
theorem C6_boundary_walls (gs : GameState) (p v : Vector3) (resp : CollisionResponse)
    (b : Body) :
    ((gridResp gs p v resp).hasCollision = true ↔
      (resp.hasCollision = true ∨
       (p.x - gs.entitySize < -gs.gridSize ∧ v.x < 0) ∨
       (p.x + gs.entitySize > gs.gridSize ∧ v.x > 0) ∨
       (p.y - gs.entitySize < -gs.gridSize ∧ v.y < 0) ∨
       (p.y + gs.entitySize > gs.gridSize ∧ v.y > 0))) ∧
    (((p.x - gs.entitySize < -gs.gridSize ∧ v.x < 0) ∨
      (p.x + gs.entitySize > gs.gridSize ∧ v.x > 0) ∨
      (p.y - gs.entitySize < -gs.gridSize ∧ v.y < 0) ∨
      (p.y + gs.entitySize > gs.gridSize ∧ v.y > 0)) →
      0 < Vector3Length (wallNormal gs p v) ∧
      Vector3Length (Vector3Normalize (wallNormal gs p v)) = 1 ∧
      gridResp gs p v resp =
        { posDelta := Vector3Add resp.posDelta (wallPosFix gs p v)
          velDelta := Vector3Add resp.velDelta (Vector3Subtract
            (Vector3Reflect v (Vector3Normalize (wallNormal gs p v))) v)
          hasCollision := true }) ∧
    (¬((p.x - gs.entitySize < -gs.gridSize ∧ v.x < 0) ∨
       (p.x + gs.entitySize > gs.gridSize ∧ v.x > 0) ∨
       (p.y - gs.entitySize < -gs.gridSize ∧ v.y < 0) ∨
       (p.y + gs.entitySize > gs.gridSize ∧ v.y > 0)) →
      gridResp gs p v resp = resp) ∧
    ((p.x - gs.entitySize < -gs.gridSize ∧ v.x < 0) →
      p.x + (wallPosFix gs p v).x = -gs.gridSize + gs.entitySize) ∧
    ((p.x + gs.entitySize > gs.gridSize ∧ v.x > 0) →
      p.x + (wallPosFix gs p v).x = gs.gridSize - gs.entitySize) ∧
    ((p.y - gs.entitySize < -gs.gridSize ∧ v.y < 0) →
      p.y + (wallPosFix gs p v).y = -gs.gridSize + gs.entitySize) ∧
    ((p.y + gs.entitySize > gs.gridSize ∧ v.y > 0) →
      p.y + (wallPosFix gs p v).y = gs.gridSize - gs.entitySize) ∧
    (DetectGridEntityBody gs b = { b with resp := gridResp gs b.pos b.vel b.resp }) ∧
    ((DetectGridEntityBody c6GS c6Body).resp.hasCollision = true ∧
     (ApplyCollisionResponseBody (fun _ => 0) (DetectGridEntityBody c6GS c6Body)).pos.x = 240 ∧
     -240 ≤ (ApplyCollisionResponseBody (fun _ => 0) (DetectGridEntityBody c6GS c6Body)).pos.x ∧
     (ApplyCollisionResponseBody (fun _ => 0) (DetectGridEntityBody c6GS c6Body)).pos.x ≤ 240 ∧
     (ApplyCollisionResponseBody (fun _ => 0) (DetectGridEntityBody c6GS c6Body)).vel.x = -100 ∧
     (ApplyCollisionResponseBody (fun _ => 0) (DetectGridEntityBody c6GS c6Body)).vel.x < 0) ∧
    ((DetectGridEntityBody c6GS c6Corner).resp.hasCollision = true ∧
     (ApplyCollisionResponseBody (fun _ => 0) (DetectGridEntityBody c6GS c6Corner)).pos.x = 240 ∧
     (ApplyCollisionResponseBody (fun _ => 0) (DetectGridEntityBody c6GS c6Corner)).pos.y = 240 ∧
     (ApplyCollisionResponseBody (fun _ => 0) (DetectGridEntityBody c6GS c6Corner)).vel.x = -100 ∧
     (ApplyCollisionResponseBody (fun _ => 0) (DetectGridEntityBody c6GS c6Corner)).vel.y = -100) ∧
    (gridResp c6GS c6Body.pos c6Body.vel
        { posDelta := ⟨1, 2, 0⟩, velDelta := ⟨3, 4, 0⟩, hasCollision := true }
      = { posDelta := ⟨-4, 2, 0⟩, velDelta := ⟨-197, 4, 0⟩, hasCollision := true }) := by
  refine ⟨?_, ?_, ?_, ?_, ?_, ?_, ?_, rfl, ?_, ?_, ?_⟩
  · rw [gridResp_eq]
    split
    · rename_i hb
      simp [hb]
    · rename_i hb
      simp [hb]
  · exact fun hb => gridResp_violated gs p v resp hb
  · intro hnb
    rw [gridResp_eq, if_neg hnb]
  · exact fun h => wallPosFix_left gs p v h
  · exact fun h => wallPosFix_right gs p v h
  · exact fun h => wallPosFix_bottom gs p v h
  · exact fun h => wallPosFix_top gs p v h
  · have hR : c6Body.pos.x + c6GS.entitySize > c6GS.gridSize ∧ c6Body.vel.x > 0 := by
      show (245 : ℝ) + 10 > 250 ∧ (100 : ℝ) > 0
      norm_num
    have hd : (c6Body.pos.x - c6GS.entitySize < -c6GS.gridSize ∧ c6Body.vel.x < 0) ∨
        (c6Body.pos.x + c6GS.entitySize > c6GS.gridSize ∧ c6Body.vel.x > 0) ∨
        (c6Body.pos.y - c6GS.entitySize < -c6GS.gridSize ∧ c6Body.vel.y < 0) ∨
        (c6Body.pos.y + c6GS.entitySize > c6GS.gridSize ∧ c6Body.vel.y > 0) :=
      Or.inr (Or.inl hR)
    obtain ⟨-, -, heq⟩ := gridResp_violated c6GS c6Body.pos c6Body.vel c6Body.resp hd
    have hflag : (gridResp c6GS c6Body.pos c6Body.vel c6Body.resp).hasCollision = true := by
      simp [heq]
    have hpd : (gridResp c6GS c6Body.pos c6Body.vel c6Body.resp).posDelta
        = (⟨-5, 0, 0⟩ : Vector3) := by
      rw [heq]
      show Vector3Add c6Body.resp.posDelta (wallPosFix c6GS c6Body.pos c6Body.vel)
        = (⟨-5, 0, 0⟩ : Vector3)
      rw [c6_scen_fix]
      show Vector3Add Vector3Zero ⟨-5, 0, 0⟩ = (⟨-5, 0, 0⟩ : Vector3)
      unfold Vector3Add Vector3Zero
      norm_num
    have hvd : (gridResp c6GS c6Body.pos c6Body.vel c6Body.resp).velDelta
        = (⟨-200, 0, 0⟩ : Vector3) := by
      rw [heq]
      show Vector3Add c6Body.resp.velDelta (Vector3Subtract
          (Vector3Reflect c6Body.vel (Vector3Normalize (wallNormal c6GS c6Body.pos c6Body.vel)))
          c6Body.vel) = (⟨-200, 0, 0⟩ : Vector3)
      rw [c6_scen_normal, c6_normalize_negx, c6_refl_x]
      show Vector3Add Vector3Zero (Vector3Subtract ⟨-100, 0, 0⟩ ⟨100, 0, 0⟩)
        = (⟨-200, 0, 0⟩ : Vector3)
      unfold Vector3Add Vector3Subtract Vector3Zero
      norm_num
    have happly : ApplyCollisionResponseBody (fun _ => 0) (DetectGridEntityBody c6GS c6Body) =
        { DetectGridEntityBody c6GS c6Body with
          pos := Vector3Add (DetectGridEntityBody c6GS c6Body).pos
            (DetectGridEntityBody c6GS c6Body).resp.posDelta
          vel := Vector3Add (DetectGridEntityBody c6GS c6Body).vel
            (DetectGridEntityBody c6GS c6Body).resp.velDelta
          color := 0
          resp := { posDelta := Vector3Zero, velDelta := Vector3Zero,
                    hasCollision := false } } := by
      unfold ApplyCollisionResponseBody
      rw [if_neg (by rw [show (DetectGridEntityBody c6GS c6Body).resp.hasCollision = true
        from hflag]; simp)]
    refine ⟨hflag, ?_, ?_, ?_, ?_, ?_⟩ <;> rw [happly]
    · show (Vector3Add c6Body.pos (gridResp c6GS c6Body.pos c6Body.vel c6Body.resp).posDelta).x
        = 240
      rw [hpd]
      show (245 : ℝ) + -5 = 240
      norm_num
    · show (-240 : ℝ) ≤ (Vector3Add c6Body.pos
        (gridResp c6GS c6Body.pos c6Body.vel c6Body.resp).posDelta).x
      rw [hpd]
      show (-240 : ℝ) ≤ 245 + -5
      norm_num
    · show (Vector3Add c6Body.pos
        (gridResp c6GS c6Body.pos c6Body.vel c6Body.resp).posDelta).x ≤ 240
      rw [hpd]
      show (245 : ℝ) + -5 ≤ 240
      norm_num
    · show (Vector3Add c6Body.vel
        (gridResp c6GS c6Body.pos c6Body.vel c6Body.resp).velDelta).x = -100
      rw [hvd]
      show (100 : ℝ) + -200 = -100
      norm_num
    · show (Vector3Add c6Body.vel
        (gridResp c6GS c6Body.pos c6Body.vel c6Body.resp).velDelta).x < 0
      rw [hvd]
      show (100 : ℝ) + -200 < 0
      norm_num
  · have hRc : c6Corner.pos.x + c6GS.entitySize > c6GS.gridSize ∧ c6Corner.vel.x > 0 := by
      show (245 : ℝ) + 10 > 250 ∧ (100 : ℝ) > 0
      norm_num
    have hdC : (c6Corner.pos.x - c6GS.entitySize < -c6GS.gridSize ∧ c6Corner.vel.x < 0) ∨
        (c6Corner.pos.x + c6GS.entitySize > c6GS.gridSize ∧ c6Corner.vel.x > 0) ∨
        (c6Corner.pos.y - c6GS.entitySize < -c6GS.gridSize ∧ c6Corner.vel.y < 0) ∨
        (c6Corner.pos.y + c6GS.entitySize > c6GS.gridSize ∧ c6Corner.vel.y > 0) :=
      Or.inr (Or.inl hRc)
    obtain ⟨-, -, heqC⟩ := gridResp_violated c6GS c6Corner.pos c6Corner.vel c6Corner.resp hdC
    have hflagC : (gridResp c6GS c6Corner.pos c6Corner.vel c6Corner.resp).hasCollision
        = true := by
      simp [heqC]
    have hpdC : (gridResp c6GS c6Corner.pos c6Corner.vel c6Corner.resp).posDelta
        = (⟨-5, -5, 0⟩ : Vector3) := by
      rw [heqC]
      show Vector3Add c6Corner.resp.posDelta (wallPosFix c6GS c6Corner.pos c6Corner.vel)
        = (⟨-5, -5, 0⟩ : Vector3)
      rw [c6_corner_fix]
      show Vector3Add Vector3Zero ⟨-5, -5, 0⟩ = (⟨-5, -5, 0⟩ : Vector3)
      unfold Vector3Add Vector3Zero
      norm_num
    have hvdC : (gridResp c6GS c6Corner.pos c6Corner.vel c6Corner.resp).velDelta
        = (⟨-200, -200, 0⟩ : Vector3) := by
      rw [heqC]
      show Vector3Add c6Corner.resp.velDelta (Vector3Subtract
          (Vector3Reflect c6Corner.vel
            (Vector3Normalize (wallNormal c6GS c6Corner.pos c6Corner.vel)))
          c6Corner.vel) = (⟨-200, -200, 0⟩ : Vector3)
      rw [c6_corner_normal, c6_corner_reflect]
      show Vector3Add Vector3Zero (Vector3Subtract ⟨-100, -100, 0⟩ ⟨100, 100, 0⟩)
        = (⟨-200, -200, 0⟩ : Vector3)
      unfold Vector3Add Vector3Subtract Vector3Zero
      norm_num
    have happlyC : ApplyCollisionResponseBody (fun _ => 0) (DetectGridEntityBody c6GS c6Corner) =
        { DetectGridEntityBody c6GS c6Corner with
          pos := Vector3Add (DetectGridEntityBody c6GS c6Corner).pos
            (DetectGridEntityBody c6GS c6Corner).resp.posDelta
          vel := Vector3Add (DetectGridEntityBody c6GS c6Corner).vel
            (DetectGridEntityBody c6GS c6Corner).resp.velDelta
          color := 0
          resp := { posDelta := Vector3Zero, velDelta := Vector3Zero,
                    hasCollision := false } } := by
      unfold ApplyCollisionResponseBody
      rw [if_neg (by rw [show (DetectGridEntityBody c6GS c6Corner).resp.hasCollision = true
        from hflagC]; simp)]
    refine ⟨hflagC, ?_, ?_, ?_, ?_⟩ <;> rw [happlyC]
    · show (Vector3Add c6Corner.pos
        (gridResp c6GS c6Corner.pos c6Corner.vel c6Corner.resp).posDelta).x = 240
      rw [hpdC]
      show (245 : ℝ) + -5 = 240
      norm_num
    · show (Vector3Add c6Corner.pos
        (gridResp c6GS c6Corner.pos c6Corner.vel c6Corner.resp).posDelta).y = 240
      rw [hpdC]
      show (245 : ℝ) + -5 = 240
      norm_num
    · show (Vector3Add c6Corner.vel
        (gridResp c6GS c6Corner.pos c6Corner.vel c6Corner.resp).velDelta).x = -100
      rw [hvdC]
      show (100 : ℝ) + -200 = -100
      norm_num
    · show (Vector3Add c6Corner.vel
        (gridResp c6GS c6Corner.pos c6Corner.vel c6Corner.resp).velDelta).y = -100
      rw [hvdC]
      show (100 : ℝ) + -200 = -100
      norm_num
  · have hR : c6Body.pos.x + c6GS.entitySize > c6GS.gridSize ∧ c6Body.vel.x > 0 := by
      show (245 : ℝ) + 10 > 250 ∧ (100 : ℝ) > 0
      norm_num
    have hd : (c6Body.pos.x - c6GS.entitySize < -c6GS.gridSize ∧ c6Body.vel.x < 0) ∨
        (c6Body.pos.x + c6GS.entitySize > c6GS.gridSize ∧ c6Body.vel.x > 0) ∨
        (c6Body.pos.y - c6GS.entitySize < -c6GS.gridSize ∧ c6Body.vel.y < 0) ∨
        (c6Body.pos.y + c6GS.entitySize > c6GS.gridSize ∧ c6Body.vel.y > 0) :=
      Or.inr (Or.inl hR)
    obtain ⟨-, -, heqN⟩ := gridResp_violated c6GS c6Body.pos c6Body.vel
      { posDelta := ⟨1, 2, 0⟩, velDelta := ⟨3, 4, 0⟩, hasCollision := true } hd
    rw [heqN, c6_scen_fix, c6_scen_normal, c6_normalize_negx, c6_refl_x]
    norm_num [Vector3Add, Vector3Subtract, c6Body]

/-- Witness for C6: the scenario body violates the right wall, and the theorem
then yields a positive combined-normal length for it. -/
theorem C6_boundary_walls_witness :
    ((c6Body.pos.x - c6GS.entitySize < -c6GS.gridSize ∧ c6Body.vel.x < 0) ∨
     (c6Body.pos.x + c6GS.entitySize > c6GS.gridSize ∧ c6Body.vel.x > 0) ∨
     (c6Body.pos.y - c6GS.entitySize < -c6GS.gridSize ∧ c6Body.vel.y < 0) ∨
     (c6Body.pos.y + c6GS.entitySize > c6GS.gridSize ∧ c6Body.vel.y > 0)) ∧
    0 < Vector3Length (wallNormal c6GS c6Body.pos c6Body.vel) := by
  have hR : c6Body.pos.x + c6GS.entitySize > c6GS.gridSize ∧ c6Body.vel.x > 0 := by
    show (245 : ℝ) + 10 > 250 ∧ (100 : ℝ) > 0
    norm_num
  exact ⟨Or.inr (Or.inl hR),
    ((C6_boundary_walls c6GS c6Body.pos c6Body.vel c6Body.resp c6Body).2.1
      (Or.inr (Or.inl hR))).1⟩

/-! ### Body placement with capped retries (claim C9) -/

theorem placementLoop_all_invalid (samples : ℕ → Vector3) (valid : Vector3 → Bool)
    (hall : ∀ n, valid (samples n) = false) :
    ∀ (f i : ℕ), i ≤ 99 → 99 ≤ i + f →
      placementLoop samples valid i f = (samples 99, false, 100) := by
  intro f
  induction f with
  | zero =>
    intro i h1 h2
    have h99 : i = 99 := by omega
    subst h99
    simp [placementLoop, hall]
  | succ f ih =>
    intro i h1 h2
    by_cases hi : i = 99
    · subst hi
      simp [placementLoop, hall]
    · rw [placementLoop, if_neg]
      · exact ih (i + 1) (by omega) (by omega)
      · simp [hall i]
        omega

theorem placementLoop_valid_of_true (samples : ℕ → Vector3) (valid : Vector3 → Bool) :
    ∀ (f i : ℕ), (placementLoop samples valid i f).2.1 = true →
      valid (placementLoop samples valid i f).1 = true := by
  intro f
  induction f with
  | zero =>
    intro i h
    exact h
  | succ f ih =>
    intro i h
    rw [placementLoop] at h ⊢
    split at h
    · rw [if_pos (by assumption)]
      exact h
    · rw [if_neg (by assumption)]
      exact ih (i + 1) h

/-- Claim C9: body creation checks a candidate against every live body and
rejects it when it lies within `entitySize * 2` of any of them; if every one of
the 100 samples is rejected, creation returns no body, reports the failure, and
has drawn exactly 100 samples; and a body is only ever created at a position
not within `entitySize * 2` of any existing body. -/
theorem C9_placement_retry_cap (gs : GameState) (samples : ℕ → Vector3) (rv : Vector3)
    (freshColor newId : ℕ) (existing : List Body)
    (hall : ∀ n, candidateValid gs.entitySize existing (samples n) = false) :
    (∀ c : Vector3, candidateValid gs.entitySize existing c = false ↔
      ∃ e ∈ existing, Vector3Distance c e.pos < gs.entitySize * 2) ∧
    CreateEntity gs samples rv freshColor newId existing = (none, true, 100) ∧
    (∀ (samples' : ℕ → Vector3) (b : Body),
      (CreateEntity gs samples' rv freshColor newId existing).1 = some b →
      ∀ e ∈ existing, ¬(Vector3Distance b.pos e.pos < gs.entitySize * 2)) := by
  refine ⟨?_, ?_, ?_⟩
  · intro c
    unfold candidateValid
    simp [List.all_eq_true]
  · unfold CreateEntity
    rw [placementLoop_all_invalid samples _ hall 100 0 (by omega) (by omega)]
    simp
  · intro samples' b hsome e he
    unfold CreateEntity at hsome
    split at hsome
    · rename_i hv
      have hvalid := placementLoop_valid_of_true samples'
        (candidateValid gs.entitySize existing) 100 0 hv
      simp only [Option.some.injEq] at hsome
      have hpos : b.pos =
          (placementLoop samples' (candidateValid gs.entitySize existing) 0 100).1 := by
        rw [← hsome]
      rw [hpos]
      unfold candidateValid at hvalid
      rw [List.all_eq_true] at hvalid
      have := hvalid e he
      simpa using this
    · simp at hsome

/-- Witness for C9: a saturated configuration (a single existing body at the
origin and a sample stream stuck at the origin) makes creation fail after
exactly 100 samples. -/
theorem C9_placement_retry_cap_witness :
    (∀ n : ℕ, candidateValid ({} : GameState).entitySize [demoBody]
      ((fun _ => (⟨10, 0, 0⟩ : Vector3)) n) = false) ∧
    CreateEntity {} (fun _ => ⟨10, 0, 0⟩) ⟨1, 0, 0⟩ 0 2 [demoBody] = (none, true, 100) := by
  have hall : ∀ n : ℕ, candidateValid ({} : GameState).entitySize [demoBody]
      ((fun _ => (⟨10, 0, 0⟩ : Vector3)) n) = false := by
    intro n
    unfold candidateValid
    simp only [List.all_cons, List.all_nil, Bool.and_true, Bool.not_eq_false',
      decide_eq_true_eq]
    have hz : Vector3Distance ⟨10, 0, 0⟩ demoBody.pos = 0 := by
      show Vector3Length (Vector3Subtract ⟨10, 0, 0⟩ ⟨10, 0, 0⟩) = 0
      unfold Vector3Length Vector3Subtract
      norm_num
    rw [hz]
    show (0 : ℝ) < 10 * 2
    norm_num
  exact ⟨hall, (C9_placement_retry_cap {} (fun _ => ⟨10, 0, 0⟩) ⟨1, 0, 0⟩ 0 2 [demoBody] hall).2.1⟩

/-! ### The spatial-hash key bug (claims C1 and C2) -/

theorem hsup20 : ((10 : ℝ) * 2) ⊔ 1 = 20 := by
  rw [show ((10 : ℝ) * 2) ⊔ 1 = max ((10 : ℝ) * 2) 1 from rfl,
    max_eq_left (by norm_num : (1 : ℝ) ≤ 10 * 2)]
  norm_num

def c1BodyA : Body :=
  { id := 1, pos := ⟨10, 0, 0⟩, vel := ⟨0, 0, 0⟩, color := 0, cell := (0, 0), resp := respZero }

def c1BodyB : Body :=
  { id := 2, pos := ⟨25, 0, 0⟩, vel := ⟨0, 0, 0⟩, color := 0, cell := (1, 0), resp := respZero }

def c1World : World := { bodies := [c1BodyA, c1BodyB], buckets := fun _ => [] }

/-- The bucket map the build step produces for `c1World`: both inserts use the
truncated keys `storedBucketKey 0 0` and `storedBucketKey 1 0`. -/
def c1bk : Int → List ℕ :=
  bucketInsert (bucketInsert (fun _ => []) (storedBucketKey 0 0) 1) (storedBucketKey 1 0) 2

theorem c1_cellA : ComputeCell c1BodyA.pos 20 = (0, 0) := by
  unfold ComputeCell
  show (⌊(10 : ℝ) / 20⌋, ⌊(0 : ℝ) / 20⌋) = (0, 0)
  rw [Prod.mk.injEq]
  refine ⟨?_, ?_⟩ <;> (rw [Int.floor_eq_iff]; norm_num)

theorem c1_cellB : ComputeCell c1BodyB.pos 20 = (1, 0) := by
  unfold ComputeCell
  show (⌊(25 : ℝ) / 20⌋, ⌊(0 : ℝ) / 20⌋) = (1, 0)
  rw [Prod.mk.injEq]
  refine ⟨?_, ?_⟩ <;> (rw [Int.floor_eq_iff]; norm_num)

theorem c1_fA (cs : ℝ) (h : cs = 20) : UpdateSpatialCellBody cs c1BodyA = c1BodyA := by
  unfold UpdateSpatialCellBody
  rw [h, c1_cellA]
  rfl

theorem c1_fB (cs : ℝ) (h : cs = 20) : UpdateSpatialCellBody cs c1BodyB = c1BodyB := by
  unfold UpdateSpatialCellBody
  rw [h, c1_cellB]
  rfl

theorem c1_built : UpdateSpatialCell {} (ClearSpatialBuckets c1World) =
    { bodies := [c1BodyA, c1BodyB], buckets := c1bk } := by
  simp only [UpdateSpatialCell, ClearSpatialBuckets, c1World, List.map_cons, List.map_nil,
    List.foldl_cons, List.foldl_nil]
  rw [c1_fA _ hsup20, c1_fB _ hsup20]
  rfl

/-- Claim C1 (code bug): after the build step each body is in exactly one
bucket, but the bucket key actually used is the `int32_t` truncation of
`CellKey` (main.cpp:550), which is not injective: the distinct cells (0,0) and
(1,0) both map to stored key 0, so both bodies land in one shared bucket even
though the untruncated 64-bit `CellKey` would separate the two cells. -/
theorem C1_bucket_key_not_injective :
    ((UpdateSpatialCell {} (ClearSpatialBuckets c1World)).bodies.map Body.cell
      = [(0, 0), (1, 0)]) ∧
    ((UpdateSpatialCell {} (ClearSpatialBuckets c1World)).buckets 0 = [1, 2]) ∧
    storedBucketKey 0 0 = 0 ∧ storedBucketKey 1 0 = 0 ∧
    ((0, 0) : Int × Int) ≠ ((1, 0) : Int × Int) ∧
    CellKey 0 0 ≠ CellKey 1 0 := by
  refine ⟨?_, ?_, by decide, by decide, by decide, by decide⟩
  · rw [c1_built]
    rfl
  · rw [c1_built]
    show c1bk 0 = [1, 2]
    unfold c1bk
    rw [show storedBucketKey 0 0 = 0 from by decide, show storedBucketKey 1 0 = 0 from by decide]
    unfold bucketInsert
    simp

def c2BodyA : Body :=
  { id := 1, pos := ⟨100, 0, 0⟩, vel := ⟨0, 0, 0⟩, color := 0, cell := (5, 0), resp := respZero }

def c2BodyB : Body :=
  { id := 2, pos := ⟨110, 0, 0⟩, vel := ⟨0, 0, 0⟩, color := 0, cell := (5, 0), resp := respZero }

def c2World : World := { bodies := [c2BodyA, c2BodyB], buckets := fun _ => [] }

def c2bk : Int → List ℕ :=
  bucketInsert (bucketInsert (fun _ => []) (storedBucketKey 5 0) 1) (storedBucketKey 5 0) 2

theorem c2_cellA : ComputeCell c2BodyA.pos 20 = (5, 0) := by
  unfold ComputeCell
  show (⌊(100 : ℝ) / 20⌋, ⌊(0 : ℝ) / 20⌋) = (5, 0)
  rw [Prod.mk.injEq]
  refine ⟨?_, ?_⟩ <;> (rw [Int.floor_eq_iff]; norm_num)

theorem c2_cellB : ComputeCell c2BodyB.pos 20 = (5, 0) := by
  unfold ComputeCell
  show (⌊(110 : ℝ) / 20⌋, ⌊(0 : ℝ) / 20⌋) = (5, 0)
  rw [Prod.mk.injEq]
  refine ⟨?_, ?_⟩ <;> (rw [Int.floor_eq_iff]; norm_num)

theorem c2_fA (cs : ℝ) (h : cs = 20) : UpdateSpatialCellBody cs c2BodyA = c2BodyA := by
  unfold UpdateSpatialCellBody
  rw [h, c2_cellA]
  rfl

theorem c2_fB (cs : ℝ) (h : cs = 20) : UpdateSpatialCellBody cs c2BodyB = c2BodyB := by
  unfold UpdateSpatialCellBody
  rw [h, c2_cellB]
  rfl

theorem c2_built : UpdateSpatialCell {} (ClearSpatialBuckets c2World) =
    { bodies := [c2BodyA, c2BodyB], buckets := c2bk } := by
  simp only [UpdateSpatialCell, ClearSpatialBuckets, c2World, List.map_cons, List.map_nil,
    List.foldl_cons, List.foldl_nil]
  rw [c2_fA _ hsup20, c2_fB _ hsup20]
  rfl

theorem c2_bucket_eval (k : Int) (hk : k ≠ 0) : c2bk k = [] := by
  unfold c2bk
  rw [show storedBucketKey 5 0 = 0 from by decide]
  unfold bucketInsert
  rw [if_neg hk, if_neg hk]

theorem c2_scan_empty : scanCands c2bk (5, 0) = [] := by
  unfold scanCands offsets
  simp only [List.map_cons, List.map_nil]
  rw [c2_bucket_eval (CellKey (5 + -1) (0 + -1)) (by decide),
    c2_bucket_eval (CellKey (5 + 0) (0 + -1)) (by decide),
    c2_bucket_eval (CellKey (5 + 1) (0 + -1)) (by decide),
    c2_bucket_eval (CellKey (5 + -1) (0 + 0)) (by decide),
    c2_bucket_eval (CellKey (5 + 0) (0 + 0)) (by decide),
    c2_bucket_eval (CellKey (5 + 1) (0 + 0)) (by decide),
    c2_bucket_eval (CellKey (5 + -1) (0 + 1)) (by decide),
    c2_bucket_eval (CellKey (5 + 0) (0 + 1)) (by decide),
    c2_bucket_eval (CellKey (5 + 1) (0 + 1)) (by decide)]
  rfl

theorem c2_detectA : DetectEntitiesBody (({} : GameState).entitySize * 2) c2bk 1
    [c2BodyA, c2BodyB] = [c2BodyA, c2BodyB] := by
  unfold DetectEntitiesBody
  rw [show findBody 1 [c2BodyA, c2BodyB] = some c2BodyA from rfl]
  show List.foldl (fun acc p => interactPair (({} : GameState).entitySize * 2) p.1 p.2 acc)
    [c2BodyA, c2BodyB] (pairsToProcess c2bk c2BodyA) = [c2BodyA, c2BodyB]
  rw [show pairsToProcess c2bk c2BodyA = [] from by
    unfold pairsToProcess
    rw [show c2BodyA.cell = ((5 : Int), (0 : Int)) from rfl, c2_scan_empty]
    rfl]
  rfl

theorem c2_detectB : DetectEntitiesBody (({} : GameState).entitySize * 2) c2bk 2
    [c2BodyA, c2BodyB] = [c2BodyA, c2BodyB] := by
  unfold DetectEntitiesBody
  rw [show findBody 2 [c2BodyA, c2BodyB] = some c2BodyB from rfl]
  show List.foldl (fun acc p => interactPair (({} : GameState).entitySize * 2) p.1 p.2 acc)
    [c2BodyA, c2BodyB] (pairsToProcess c2bk c2BodyB) = [c2BodyA, c2BodyB]
  rw [show pairsToProcess c2bk c2BodyB = [] from by
    unfold pairsToProcess
    rw [show c2BodyB.cell = ((5 : Int), (0 : Int)) from rfl, c2_scan_empty]
    rfl]
  rfl

/-- Claim C2 (code bug): the two bodies overlap (center distance 10 < 20) and
share the spatial cell (5,0), so the 3x3 scan of the spec must examine the pair and
record a contact on both; but the build step stores them under the truncated
key 0 while the detector looks the scanned cells up under the full 64-bit
`CellKey` (which is `5 * 2^32` for their own cell), so every lookup misses, no
candidate is examined, and both bodies leave detection with
`hasCollision = false`. -/
theorem C2_broadphase_misses_overlapping_pair :
    Vector3Distance c2BodyA.pos c2BodyB.pos < ({} : GameState).entitySize * 2 ∧
    ((UpdateSpatialCell {} (ClearSpatialBuckets c2World)).bodies.map Body.cell
      = [(5, 0), (5, 0)]) ∧
    ((UpdateSpatialCell {} (ClearSpatialBuckets c2World)).buckets (CellKey 5 0) = []) ∧
    ((UpdateSpatialCell {} (ClearSpatialBuckets c2World)).buckets 0 = [1, 2]) ∧
    (∀ b ∈ (DetectEntitiesCollision {}
        (UpdateSpatialCell {} (ClearSpatialBuckets c2World))).bodies,
      b.resp.hasCollision = false) := by
  have hdist : Vector3Distance c2BodyA.pos c2BodyB.pos = 10 := by
    show Vector3Length (Vector3Subtract ⟨110, 0, 0⟩ ⟨100, 0, 0⟩) = 10
    unfold Vector3Length Vector3Subtract
    rw [show ((110 : ℝ) - 100) * ((110 : ℝ) - 100) + ((0 : ℝ) - 0) * ((0 : ℝ) - 0)
        + ((0 : ℝ) - 0) * ((0 : ℝ) - 0) = 10 ^ 2 by norm_num]
    rw [Real.sqrt_sq (by norm_num)]
  refine ⟨?_, ?_, ?_, ?_, ?_⟩
  · rw [hdist]
    show (10 : ℝ) < 10 * 2
    norm_num
  · rw [c2_built]
    rfl
  · rw [c2_built]
    exact c2_bucket_eval (CellKey 5 0) (by decide)
  · rw [c2_built]
    show c2bk 0 = [1, 2]
    unfold c2bk
    rw [show storedBucketKey 5 0 = 0 from by decide]
    unfold bucketInsert
    simp
  · rw [c2_built]
    show ∀ b ∈ DetectEntitiesBody (({} : GameState).entitySize * 2) c2bk 2
        (DetectEntitiesBody (({} : GameState).entitySize * 2) c2bk 1 [c2BodyA, c2BodyB]),
      b.resp.hasCollision = false
    rw [c2_detectA, c2_detectB]
    intro b hb
    rcases List.mem_cons.mp hb with rfl | hb'
    · rfl
    · rcases List.mem_cons.mp hb' with rfl | hb''
      · rfl
      · cases hb''

/-! ### Pair uniqueness (claim C5): bucket counting -/

/-- The bucket-filling fold of the build step. -/
def insertAll (bs : List Body) (f0 : Int → List ℕ) : Int → List ℕ :=
  bs.foldl (fun f b => bucketInsert f (storedBucketKey b.cell.1 b.cell.2) b.id) f0

theorem UpdateSpatialCell_buckets (gs : GameState) (w : World) :
    (UpdateSpatialCell gs w).buckets = insertAll (UpdateSpatialCell gs w).bodies w.buckets := rfl

theorem UpdateSpatialCell_ids (gs : GameState) (w : World) :
    (UpdateSpatialCell gs w).bodies.map Body.id = w.bodies.map Body.id := by
  unfold UpdateSpatialCell
  simp only [List.map_map]
  rfl

theorem bucketInsert_count (f : Int → List ℕ) (k0 : Int) (j0 : ℕ) (j : ℕ) (k : Int) :
    ((bucketInsert f k0 j0) k).count j =
      (f k).count j + (if k = k0 ∧ j = j0 then 1 else 0) := by
  unfold bucketInsert
  by_cases hk : k = k0
  · rw [if_pos hk, List.count_append]
    by_cases hj : j = j0 <;> simp [hj, hk]
  · rw [if_neg hk]
    simp [hk]

theorem insertAll_count (bs : List Body) (f0 : Int → List ℕ) (j : ℕ) (k : Int) :
    ((insertAll bs f0) k).count j = ((f0 k).count j) +
      (bs.countP fun b => decide (b.id = j ∧ storedBucketKey b.cell.1 b.cell.2 = k)) := by
  induction bs generalizing f0 with
  | nil => simp [insertAll]
  | cons b bs ih =>
    rw [insertAll, List.foldl_cons]
    rw [show List.foldl (fun f b => bucketInsert f (storedBucketKey b.cell.1 b.cell.2) b.id)
        (bucketInsert f0 (storedBucketKey b.cell.1 b.cell.2) b.id) bs
        = insertAll bs (bucketInsert f0 (storedBucketKey b.cell.1 b.cell.2) b.id) from rfl]
    rw [ih, bucketInsert_count, List.countP_cons]
    by_cases h1 : b.id = j <;> by_cases h2 : storedBucketKey b.cell.1 b.cell.2 = k
    · rw [if_pos ⟨h2.symm, h1.symm⟩, if_pos (by simp [h1, h2])]
      omega
    · rw [if_neg (fun hc => h2 hc.1.symm), if_neg (by simp [h1, h2])]
      omega
    · rw [if_neg (fun hc => h1 hc.2.symm), if_neg (by simp [h1, h2])]
      omega
    · rw [if_neg (fun hc => h1 hc.2.symm), if_neg (by simp [h1, h2])]
      omega

theorem built_count_le_one {gs : GameState} {w : World}
    (hnd : (w.bodies.map Body.id).Nodup) (j : ℕ) (k : Int) :
    (((UpdateSpatialCell gs (ClearSpatialBuckets w)).buckets) k).count j ≤ 1 := by
  rw [UpdateSpatialCell_buckets, insertAll_count]
  rw [show (ClearSpatialBuckets w).buckets k = [] from rfl]
  simp only [List.count_nil, Nat.zero_add]
  have hmono : ((UpdateSpatialCell gs (ClearSpatialBuckets w)).bodies.countP
      fun b => decide (b.id = j ∧ storedBucketKey b.cell.1 b.cell.2 = k))
      ≤ ((UpdateSpatialCell gs (ClearSpatialBuckets w)).bodies.countP
        fun b => decide (b.id = j)) := by
    apply List.countP_mono_left
    intro b _ hb
    simp only [decide_eq_true_eq] at hb ⊢
    exact hb.1
  refine le_trans hmono ?_
  have hnd' : ((UpdateSpatialCell gs (ClearSpatialBuckets w)).bodies.map Body.id).Nodup := by
    rw [UpdateSpatialCell_ids]
    exact hnd
  have hcount := List.nodup_iff_count_le_one.mp hnd' j
  rw [List.count_eq_countP, List.countP_map] at hcount
  refine le_trans (le_of_eq ?_) hcount
  apply List.countP_congr
  intro b _
  simp

theorem built_mem {gs : GameState} {w : World} {j : ℕ} {k : Int}
    (h : j ∈ ((UpdateSpatialCell gs (ClearSpatialBuckets w)).buckets) k) :
    ∃ b ∈ (UpdateSpatialCell gs (ClearSpatialBuckets w)).bodies,
      b.id = j ∧ storedBucketKey b.cell.1 b.cell.2 = k := by
  have hpos : 0 < (((UpdateSpatialCell gs (ClearSpatialBuckets w)).buckets) k).count j :=
    List.count_pos_iff.mpr h
  rw [UpdateSpatialCell_buckets, insertAll_count,
    show (ClearSpatialBuckets w).buckets k = [] from rfl] at hpos
  simp only [List.count_nil, Nat.zero_add, List.countP_pos_iff] at hpos
  obtain ⟨b, hb, hprop⟩ := hpos
  rw [decide_eq_true_eq] at hprop
  exact ⟨b, hb, hprop⟩

theorem built_unique_key {gs : GameState} {w : World}
    (hnd : (w.bodies.map Body.id).Nodup) (j : ℕ) :
    ∃ K : Int, ∀ k, j ∈ ((UpdateSpatialCell gs (ClearSpatialBuckets w)).buckets) k → k = K := by
  by_cases hex : ∃ k, j ∈ ((UpdateSpatialCell gs (ClearSpatialBuckets w)).buckets) k
  · obtain ⟨k0, hk0⟩ := hex
    refine ⟨k0, fun k hk => ?_⟩
    obtain ⟨b, hb, hbid, hbk⟩ := built_mem hk
    obtain ⟨b', hb', hbid', hbk'⟩ := built_mem hk0
    have hnd' : ((UpdateSpatialCell gs (ClearSpatialBuckets w)).bodies.map Body.id).Nodup := by
      rw [UpdateSpatialCell_ids]
      exact hnd
    have hbb : b = b' := List.inj_on_of_nodup_map hnd' hb hb' (by rw [hbid, hbid'])
    rw [← hbk, ← hbk', hbb]
  · refine ⟨0, fun k hk => absurd ⟨k, hk⟩ hex⟩

/-- A list of naturals, each at most 1, with all positive entries at positions
sharing a single key value, sums to at most 1 when the keys are distinct. -/
theorem sum_indicator_le_one {α κ : Type} (l : List α) (key : α → κ) (K : κ) (f : α → ℕ)
    (hnd : (l.map key).Nodup)
    (hf1 : ∀ e ∈ l, f e ≤ 1)
    (hfK : ∀ e ∈ l, 0 < f e → key e = K) :
    (l.map f).sum ≤ 1 := by
  induction l with
  | nil => simp
  | cons a l ih =>
    rw [List.map_cons, List.nodup_cons] at hnd
    rw [List.map_cons, List.sum_cons]
    by_cases ha : 0 < f a
    · have htail : ∀ e ∈ l, f e = 0 := by
        intro e he
        by_contra hne
        have hpos : 0 < f e := Nat.pos_of_ne_zero hne
        have hkey : key e = key a := (hfK e (by simp [he]) hpos).trans
          (hfK a (by simp) ha).symm
        exact hnd.1 (hkey ▸ List.mem_map_of_mem key he)
      have hzero : (l.map f).sum = 0 := by
        rw [List.sum_eq_zero_iff]
        intro x hx
        rw [List.mem_map] at hx
        obtain ⟨e, he, rfl⟩ := hx
        exact htail e he
      have := hf1 a (by simp)
      omega
    · have hfa : f a = 0 := by omega
      rw [hfa, Nat.zero_add]
      exact ih hnd.2 (fun e he => hf1 e (by simp [he])) (fun e he => hfK e (by simp [he]))

theorem scan_keys_nodup {c : Int × Int}
    (h1 : -(2 ^ 31) + 1 ≤ c.1) (h2 : c.1 ≤ 2 ^ 31 - 2)
    (h3 : -(2 ^ 31) + 1 ≤ c.2) (h4 : c.2 ≤ 2 ^ 31 - 2) :
    ((offsets.map fun o => CellKey (c.1 + o.1) (c.2 + o.2))).Nodup := by
  have hb : ∀ o ∈ offsets, (-1 ≤ o.1 ∧ o.1 ≤ 1 ∧ -1 ≤ o.2 ∧ o.2 ≤ 1) := by decide
  apply List.Nodup.map_on
  · intro o1 ho1 o2 ho2 heq
    have hb1 := hb o1 ho1
    have hb2 := hb o2 ho2
    obtain ⟨hx, hy⟩ := CellKey_inj
      (by omega) (by omega) (by omega) (by omega)
      (by omega) (by omega) (by omega) (by omega) heq
    have hx' : o1.1 = o2.1 := by omega
    have hy' : o1.2 = o2.2 := by omega
    exact Prod.ext hx' hy'
  · decide

theorem count_scanCands {bk : Int → List ℕ} {c : Int × Int} {j : ℕ} (K : Int)
    (hcount : ∀ k, (bk k).count j ≤ 1)
    (hmem : ∀ k, j ∈ bk k → k = K)
    (hkeys : ((offsets.map fun o => CellKey (c.1 + o.1) (c.2 + o.2))).Nodup) :
    (scanCands bk c).count j ≤ 1 := by
  unfold scanCands
  rw [List.count_flatten, List.map_map]
  refine le_trans (le_of_eq ?_)
    (sum_indicator_le_one offsets (fun o => CellKey (c.1 + o.1) (c.2 + o.2)) K
      (fun o => (bk (CellKey (c.1 + o.1) (c.2 + o.2))).count j) hkeys
      (fun o _ => hcount _)
      (fun o _ hpos => hmem _ (List.count_pos_iff.mp hpos)))
  rfl

theorem mem_pairsToProcess {bk : Int → List ℕ} {b1 : Body} {pr : ℕ × ℕ}
    (h : pr ∈ pairsToProcess bk b1) : pr.1 = b1.id ∧ b1.id < pr.2 := by
  unfold pairsToProcess at h
  rw [List.mem_filterMap] at h
  obtain ⟨j, hj, hguard⟩ := h
  split at hguard
  · rw [Option.some.injEq] at hguard
    rw [← hguard]
    exact ⟨rfl, by assumption⟩
  · cases hguard

theorem count_pairsToProcess_le (bk : Int → List ℕ) (b1 : Body) (pr : ℕ × ℕ) :
    (pairsToProcess bk b1).count pr ≤ (scanCands bk b1.cell).count pr.2 := by
  unfold pairsToProcess
  generalize scanCands bk b1.cell = l
  induction l with
  | nil => simp
  | cons j l ih =>
    rw [List.filterMap_cons]
    split
    · rw [List.count_cons]
      exact le_trans ih (Nat.le_add_right _ _)
    · rename_i pair hguard
      split at hguard
      · rw [Option.some.injEq] at hguard
        subst hguard
        rw [List.count_cons, List.count_cons]
        by_cases hpr : pr = (b1.id, j)
        · subst hpr
          simp only [beq_self_eq_true, if_true]
          replace ih : List.count ((b1.id, j) : ℕ × ℕ)
              (List.filterMap (fun j => if b1.id < j then some (b1.id, j) else none) l)
              ≤ List.count j l := ih
          omega
        · rw [show (((b1.id, j) : ℕ × ℕ) == pr) = false from
            beq_eq_false_iff_ne.mpr (Ne.symm hpr)]
          simp only [Bool.false_eq_true, if_false, Nat.add_zero]
          exact le_trans ih (Nat.le_add_right _ _)
      · cases hguard

theorem findBody_self {bs : List Body} (hnd : (bs.map Body.id).Nodup) {b : Body}
    (hb : b ∈ bs) : findBody b.id bs = some b := by
  induction bs with
  | nil => cases hb
  | cons a t ih =>
    rw [List.map_cons, List.nodup_cons] at hnd
    rcases List.mem_cons.mp hb with rfl | hbt
    · unfold findBody
      rw [List.find?_cons_of_pos _ (by simp)]
    · have hne : ¬(a.id = b.id) := by
        intro he
        exact hnd.1 (he ▸ List.mem_map_of_mem Body.id hbt)
      unfold findBody
      rw [List.find?_cons_of_neg _ (by simp [hne])]
      exact ih hnd.2 hbt

theorem findBody_core_eq {bs bs' : List Body} (h : bs.map bodyCore = bs'.map bodyCore) (i : ℕ) :
    Option.map bodyCore (findBody i bs) = Option.map bodyCore (findBody i bs') := by
  induction bs generalizing bs' with
  | nil =>
    cases bs' with
    | nil => rfl
    | cons b' t' => simp at h
  | cons b t ih =>
    cases bs' with
    | nil => simp at h
    | cons b' t' =>
      rw [List.map_cons, List.map_cons] at h
      injection h with h1 h2
      have hid : b.id = b'.id := congrArg (fun c => c.1) h1
      unfold findBody
      by_cases hp : b.id = i
      · rw [List.find?_cons_of_pos _ (by simp [hp]),
          List.find?_cons_of_pos _ (by simp [← hid, hp])]
        simp [h1]
      · rw [List.find?_cons_of_neg _ (by simp [hp]),
          List.find?_cons_of_neg _ (by simp [← hid, hp])]
        exact ih h2

/-- The ordered list of broadphase pairs the detector processes in one frame,
computed over the bodies and buckets produced by the build step. -/
def framePairs (gs : GameState) (w : World) : List (ℕ × ℕ) :=
  ((UpdateSpatialCell gs (ClearSpatialBuckets w)).bodies.map fun b =>
    pairsToProcess (UpdateSpatialCell gs (ClearSpatialBuckets w)).buckets b).flatten

theorem detect_fold_eq (req : ℝ) (bk : Int → List ℕ) (B0 : List Body)
    (hnd : (B0.map Body.id).Nodup) :
    ∀ (l : List Body) (bs : List Body), (∀ b ∈ l, b ∈ B0) →
      bs.map bodyCore = B0.map bodyCore →
      (l.map Body.id).foldl (fun acc i => DetectEntitiesBody req bk i acc) bs
        = ((l.map fun b => pairsToProcess bk b).flatten).foldl
            (fun acc pr => interactPair req pr.1 pr.2 acc) bs := by
  intro l
  induction l with
  | nil => intro bs _ _; rfl
  | cons b l ih =>
    intro bs hsub hcore
    rw [List.map_cons, List.foldl_cons, List.map_cons, List.flatten_cons, List.foldl_append]
    have hfind0 : findBody b.id B0 = some b := findBody_self hnd (hsub b (by simp))
    have hfind : ∃ b2, findBody b.id bs = some b2 ∧ bodyCore b2 = bodyCore b := by
      have := findBody_core_eq hcore b.id
      rw [hfind0] at this
      cases hf : findBody b.id bs with
      | none => rw [hf] at this; cases this
      | some b2 =>
        rw [hf] at this
        simp only [Option.map, Option.some.injEq] at this
        exact ⟨b2, rfl, this⟩
    obtain ⟨b2, hf, hc⟩ := hfind
    have hid : b2.id = b.id := congrArg (fun c => c.1) hc
    have hcell : b2.cell = b.cell := congrArg (fun c => c.2.2.2.2) hc
    have hpairs : pairsToProcess bk b2 = pairsToProcess bk b := by
      unfold pairsToProcess scanCands
      rw [hid, hcell]
    have hbody : DetectEntitiesBody req bk b.id bs
        = (pairsToProcess bk b).foldl (fun acc pr => interactPair req pr.1 pr.2 acc) bs := by
      unfold DetectEntitiesBody
      rw [hf]
      show (pairsToProcess bk b2).foldl (fun acc pr => interactPair req pr.1 pr.2 acc) bs
        = (pairsToProcess bk b).foldl (fun acc pr => interactPair req pr.1 pr.2 acc) bs
      rw [hpairs]
    rw [hbody]
    refine ih _ (fun x hx => hsub x (by simp [hx])) ?_
    rw [foldl_core _ (fun acc (pr : ℕ × ℕ) => interactPair_core req pr.1 pr.2 acc), hcore]

/-- Claim C5: with distinct entity ids and in-range cells, the entity-entity
detector processes each unordered pair at most once per frame (each ordered
pair `(a, b)` with `a < b` occurs at most once in the processed-pair
list), never pairs a body with itself, and the whole detection step is exactly
the fold of the pair interaction over that list. -/
theorem C5_pair_uniqueness (gs : GameState) (w : World)
    (hids : (w.bodies.map Body.id).Nodup)
    (hcells : ∀ b ∈ (UpdateSpatialCell gs (ClearSpatialBuckets w)).bodies,
      -(2 ^ 31) + 1 ≤ b.cell.1 ∧ b.cell.1 ≤ 2 ^ 31 - 2 ∧
      -(2 ^ 31) + 1 ≤ b.cell.2 ∧ b.cell.2 ≤ 2 ^ 31 - 2) :
    (∀ pr : ℕ × ℕ, (framePairs gs w).count pr ≤ 1) ∧
    (∀ a : ℕ, (a, a) ∉ framePairs gs w) ∧
    ((DetectEntitiesCollision gs (UpdateSpatialCell gs (ClearSpatialBuckets w))).bodies =
      (framePairs gs w).foldl (fun acc pr => interactPair (gs.entitySize * 2) pr.1 pr.2 acc)
        (UpdateSpatialCell gs (ClearSpatialBuckets w)).bodies) := by
  have hnd1 : ((UpdateSpatialCell gs (ClearSpatialBuckets w)).bodies.map Body.id).Nodup := by
    rw [UpdateSpatialCell_ids]
    exact hids
  refine ⟨?_, ?_, ?_⟩
  · intro pr
    unfold framePairs
    rw [List.count_flatten, List.map_map]
    refine le_trans (le_of_eq ?_)
      (sum_indicator_le_one (UpdateSpatialCell gs (ClearSpatialBuckets w)).bodies Body.id pr.1
        (fun b => (pairsToProcess (UpdateSpatialCell gs (ClearSpatialBuckets w)).buckets b).count pr)
        hnd1 ?_ ?_)
    · rfl
    · intro b hb
      show (pairsToProcess (UpdateSpatialCell gs (ClearSpatialBuckets w)).buckets b).count pr ≤ 1
      by_cases hid : pr.1 = b.id
      · refine le_trans (count_pairsToProcess_le _ _ _) ?_
        obtain ⟨K, hK⟩ := built_unique_key hids pr.2
        refine count_scanCands K (fun k => built_count_le_one hids pr.2 k) hK ?_
        have hc := hcells b hb
        exact scan_keys_nodup hc.1 hc.2.1 hc.2.2.1 hc.2.2.2
      · rw [List.count_eq_zero.mpr]
        · omega
        · intro hmem
          exact hid (mem_pairsToProcess hmem).1
    · intro b hb hpos
      have hmem := List.count_pos_iff.mp hpos
      exact ((mem_pairsToProcess hmem).1).symm
  · intro a hmem
    unfold framePairs at hmem
    rw [List.mem_flatten] at hmem
    obtain ⟨s, hs, hmem'⟩ := hmem
    rw [List.mem_map] at hs
    obtain ⟨b, hb, rfl⟩ := hs
    have h1 : a = b.id := (mem_pairsToProcess hmem').1
    have h2 : b.id < a := (mem_pairsToProcess hmem').2
    omega
  · unfold DetectEntitiesCollision framePairs
    exact detect_fold_eq (gs.entitySize * 2)
      (UpdateSpatialCell gs (ClearSpatialBuckets w)).buckets
      (UpdateSpatialCell gs (ClearSpatialBuckets w)).bodies hnd1
      (UpdateSpatialCell gs (ClearSpatialBuckets w)).bodies
      (UpdateSpatialCell gs (ClearSpatialBuckets w)).bodies
      (fun b hb => hb) rfl

/-- Witness for C5 on the two-body world of claim C1 (distinct ids, cells
(0,0) and (1,0)). -/
theorem C5_pair_uniqueness_witness :
    ((c1World.bodies.map Body.id).Nodup) ∧
    (∀ a : ℕ, (a, a) ∉ framePairs {} c1World) := by
  have hids : (c1World.bodies.map Body.id).Nodup := by
    show ([1, 2] : List ℕ).Nodup
    decide
  have hcells : ∀ b ∈ (UpdateSpatialCell {} (ClearSpatialBuckets c1World)).bodies,
      -(2 ^ 31) + 1 ≤ b.cell.1 ∧ b.cell.1 ≤ 2 ^ 31 - 2 ∧
      -(2 ^ 31) + 1 ≤ b.cell.2 ∧ b.cell.2 ≤ 2 ^ 31 - 2 := by
    rw [c1_built]
    intro b hb
    rcases List.mem_cons.mp hb with rfl | hb'
    · refine ⟨?_, ?_, ?_, ?_⟩ <;> decide
    · rcases List.mem_cons.mp hb' with rfl | hb''
      · refine ⟨?_, ?_, ?_, ?_⟩ <;> decide
      · cases hb''
  exact ⟨hids, (C5_pair_uniqueness {} c1World hids hcells).2.1⟩

end

end FlecsCollision
